import Mathlib

/-!
# VRORenderTargetOpenGL: render-target resource manager

A shallow embedding of `src/ViroRenderer/VRORenderTargetOpenGL.cpp`.

The C++ object's fields become the record `VRORenderTargetOpenGL`; everything the
methods touch outside the object (the stream of calls sent to the graphics backend and
to the driver, the backend's name generator, the heap that hands out texture objects, and
what `_driver.lock()` currently returns) is the record `Context`.  A method is a function
on `World` (object + context).  A method that can reach `pabort` or a failing `passert`
returns `Except Abort World`; a method whose body has no such path is a total function.
Types and macros that the file uses but that are declared elsewhere (`VROViewport`,
`VROTexture`, `VRODriver`, `passert`, ...) are modelled from the specification and marked
so.

The backend's answer to `glCheckFramebufferStatus` is not determined by the program, so
it is a parameter `status`, a function of the calls issued so far.
-/

namespace Viro

/-! ## Backend constants (values of the OpenGL ES headers) -/

abbrev GL_FRAMEBUFFER : Nat := 0x8D40
abbrev GL_RENDERBUFFER : Nat := 0x8D41
abbrev GL_FRAMEBUFFER_COMPLETE : Nat := 0x8CD5
abbrev GL_COLOR_ATTACHMENT0 : Nat := 0x8CE0
abbrev GL_DEPTH_ATTACHMENT : Nat := 0x8D00
abbrev GL_STENCIL_ATTACHMENT : Nat := 0x8D20
abbrev GL_TEXTURE_2D : Nat := 0x0DE1
abbrev GL_TEXTURE_2D_ARRAY : Nat := 0x8C1A
abbrev GL_TEXTURE_MAG_FILTER : Nat := 0x2800
abbrev GL_TEXTURE_MIN_FILTER : Nat := 0x2801
abbrev GL_TEXTURE_WRAP_S : Nat := 0x2802
abbrev GL_TEXTURE_WRAP_T : Nat := 0x2803
abbrev GL_TEXTURE_BASE_LEVEL : Nat := 0x813C
abbrev GL_TEXTURE_MAX_LEVEL : Nat := 0x813D
abbrev GL_TEXTURE_COMPARE_MODE : Nat := 0x884C
abbrev GL_TEXTURE_COMPARE_FUNC : Nat := 0x884D
abbrev GL_COMPARE_REF_TO_TEXTURE : Nat := 0x884E
abbrev GL_LINEAR : Nat := 0x2601
abbrev GL_CLAMP_TO_EDGE : Nat := 0x812F
abbrev GL_RGBA : Nat := 0x1908
abbrev GL_RGBA8_OES : Nat := 0x8058
abbrev GL_UNSIGNED_BYTE : Nat := 0x1401
abbrev GL_UNSIGNED_INT : Nat := 0x1405
abbrev GL_DEPTH_COMPONENT : Nat := 0x1902
abbrev GL_DEPTH_COMPONENT16 : Nat := 0x81A5
abbrev GL_DEPTH24_STENCIL8_OES : Nat := 0x88F0
abbrev GL_COLOR_BUFFER_BIT : Nat := 0x4000
abbrev GL_DEPTH_BUFFER_BIT : Nat := 0x0100
abbrev GL_STENCIL_BUFFER_BIT : Nat := 0x0400
abbrev GL_FRONT : Nat := 0x0404
abbrev GL_BACK : Nat := 0x0405
abbrev GL_FRONT_AND_BACK : Nat := 0x0408
abbrev GL_NEVER : Nat := 0x0200
abbrev GL_LESS : Nat := 0x0201
abbrev GL_EQUAL : Nat := 0x0202
abbrev GL_LEQUAL : Nat := 0x0203
abbrev GL_GREATER : Nat := 0x0204
abbrev GL_NOTEQUAL : Nat := 0x0205
abbrev GL_GEQUAL : Nat := 0x0206
abbrev GL_ALWAYS : Nat := 0x0207
abbrev GL_KEEP : Nat := 0x1E00
abbrev GL_INCR : Nat := 0x1E02
abbrev GL_DECR : Nat := 0x1E03
/-- Modelled from the spec: the kind of a render target (`VRORenderTargetType`, declared
outside the sources) is a closed set of four kinds, the four the switch statements of the
source name. -/
inductive VRORenderTargetType where
  | Renderbuffer
  | ColorTexture
  | DepthTexture
  | DepthTextureArray
  deriving DecidableEq, Repr

/-- Modelled from the spec: the polygon face selector (`VROFace`, declared outside the
sources) is front, back or both: the two cases `toGL` names and the one that falls to its
`default` branch. -/
inductive VROFace where
  | Front
  | Back
  | FrontAndBack
  deriving DecidableEq, Repr

/-- Modelled from the spec: `VROViewport` (its header is not part of the sources) is a
value with an origin (x, y) and a size (width, height).  The components are integers: the
source passes them to `glViewport` and returns them from `int getWidth() const`. -/
structure VROViewport where
  x : Int
  y : Int
  width : Int
  height : Int
  deriving DecidableEq, Repr

/-- Modelled from the spec: the clear colour is a 4-component colour (`VROVector4f`,
declared outside the sources); each component is carried as the bit pattern of its
single-precision value, since the program only passes it on to `glClearColor`. -/
structure VROVector4f where
  x : Nat
  y : Nat
  z : Nat
  w : Nat
  deriving DecidableEq, Repr

/-- Modelled from the spec: the underlying handle of a texture attachment, the pair
`(target, name)` that `VROTextureSubstrateOpenGL::getTexture()` returns (the texture
subsystem is not part of the sources). -/
structure VROTextureSubstrateOpenGL where
  target : Nat
  name : Nat
  deriving DecidableEq, Repr

/-- Modelled from the spec: a texture attachment, the object behind a
`std::shared_ptr<VROTexture>` (the texture subsystem is not part of the sources).  `id` is
the identity of the heap object (two references are the same reference exactly when the
ids agree); `substrate` is `none` when the texture's substrate is not an OpenGL one, the
case in which the `dynamic_cast` in `getTextureName` yields `nullptr`. -/
structure VROTexture where
  id : Nat
  substrate : Option VROTextureSubstrateOpenGL
  deriving DecidableEq, Repr

/-- Modelled from the spec: the driver capability (`VRODriver`, not part of the sources)
exposes enabling and disabling of depth writes and of colour writes. -/
structure VRODriver where
  depthWritingEnabled : Bool
  colorWritingEnabled : Bool
  deriving DecidableEq, Repr

/-- Every call the program sends to the graphics backend or to the driver, with the
arguments the source passes.  A `glGen*` call carries the name the backend returned. -/
inductive GLCall where
  | glBindFramebuffer (target framebuffer : Nat)
  | glViewport (x y width height : Int)
  | glScissor (x y width height : Int)
  | glFramebufferTexture2D (target attachment textarget texture : Nat) (level : Int)
  | glFramebufferTextureLayer (target attachment texture : Nat) (level layer : Int)
  | glGenTextures (name : Nat)
  | glBindTexture (target texture : Nat)
  | glTexParameterf (target pname param : Nat)
  | glTexParameteri (target pname param : Nat)
  | glTexImage2D (target : Nat) (level : Int) (internalformat : Nat) (width height border : Int)
      (format type : Nat)
  | glTexImage3D (target : Nat) (level : Int) (internalformat : Nat)
      (width height depth border : Int) (format type : Nat)
  | glGenRenderbuffers (name : Nat)
  | glBindRenderbuffer (target renderbuffer : Nat)
  | glRenderbufferStorage (target internalformat : Nat) (width height : Int)
  | glFramebufferRenderbuffer (target attachment renderbuffertarget renderbuffer : Nat)
  | glGenFramebuffers (name : Nat)
  | glDeleteFramebuffers (name : Nat)
  | glDeleteRenderbuffers (name : Nat)
  | glStencilMask (mask : Nat)
  | glClearStencil (s : Int)
  | glClearColor (r g b a : Nat)
  | glClear (mask : Nat)
  | glStencilOpSeparate (face sfail dpfail dppass : Nat)
  | glStencilMaskSeparate (face mask : Nat)
  | glStencilFuncSeparate (face func : Nat) (ref : Int) (mask : Nat)
  | setDepthWritingEnabled (enabled : Bool)
  | setColorWritingEnabled (enabled : Bool)
  deriving DecidableEq, Repr

/-- The fields of a `VRORenderTargetOpenGL` object (those of the base class
`VRORenderTarget` included: `type`, `viewport`, `clearColor`, `texture`). -/
structure VRORenderTargetOpenGL where
  type : VRORenderTargetType
  viewport : VROViewport
  clearColor : VROVector4f
  texture : Option VROTexture
  framebuffer : Nat
  depthStencilbuffer : Nat
  colorbuffer : Nat
  numImages : Int
  deriving DecidableEq, Repr

/-- What surrounds the object.  `calls`: every backend and driver call issued so far,
oldest first.  `names`: how many object names `glGen*` has handed out (the next one is
`names + 1`, so a generated name is never 0).  `objects`: how many texture objects the
heap has handed out (the next one gets id `objects + 1`).  `driver`: what `_driver.lock()`
returns now, `none` once the driver is gone. -/
structure Context where
  calls : List GLCall
  names : Nat
  objects : Nat
  driver : Option VRODriver
  deriving DecidableEq, Repr

/-- A render target together with its surroundings. -/
structure World where
  self : VRORenderTargetOpenGL
  ctx : Context
  deriving DecidableEq, Repr

/-- Modelled from the spec: `pabort`, and a `passert` whose condition is false, are fatal
and terminate at once (the two macros are defined outside the sources).  An abort carries
the diagnostic and the world at the moment the program stops, so that what had been done
before the abort can be stated. -/
structure Abort where
  message : String
  world : World
  deriving DecidableEq, Repr

/-- Append one call to the call stream. -/
def World.issue (w : World) (c : GLCall) : World :=
  { w with ctx := { w.ctx with calls := w.ctx.calls ++ [c] } }

/-- Append several calls, in order, to the call stream. -/
def World.issueAll (w : World) (cs : List GLCall) : World :=
  { w with ctx := { w.ctx with calls := w.ctx.calls ++ cs } }

/-- A `glGen*(1, &n)` call: the backend hands out the next unused name and the call is
recorded with it. -/
def World.gen (w : World) (mk : Nat → GLCall) : Nat × World :=
  (w.ctx.names + 1,
   { w with ctx := { w.ctx with names := w.ctx.names + 1,
                                calls := w.ctx.calls ++ [mk (w.ctx.names + 1)] } })

/-! ## Conversion of an `int` to `float` -/

/-- The value of the single-precision float nearest to the natural number `m` (ties to
even): `m` itself below 2^24, else `m` rounded to 24 significant bits. -/
def toFloatNat (m : Nat) : Nat :=
  if m < 2 ^ 24 then m
  else
    let e := Nat.log2 m - 23
    let q := m / 2 ^ e
    let r := m % 2 ^ e
    if 2 * r > 2 ^ e ∨ (2 * r = 2 ^ e ∧ q % 2 = 1) then (q + 1) * 2 ^ e else q * 2 ^ e

/-- The value an `int` has after conversion to `float` (as in
`float previousWidth = _viewport.getWidth();`), for the 32-bit range of `int`. -/
def toFloat (n : Int) : Int :=
  if n < 0 then -((toFloatNat n.natAbs : Nat) : Int) else ((toFloatNat n.natAbs : Nat) : Int)

/-! ## Construction and simple accessors -/

/-- Modelled from the spec: the default `VROViewport` of a new target is zero-size (the
base-class constructor `VRORenderTarget(type)` is not part of the sources). -/
def zeroViewport : VROViewport := { x := 0, y := 0, width := 0, height := 0 }

/-- The constructor: `_framebuffer(0), _depthStencilbuffer(0), _colorbuffer(0),
_numImages(numImages), _driver(driver)`; no texture; the viewport and the clear colour
are those the base class gives (the clear colour's default is a parameter). -/
def construct (type : VRORenderTargetType) (numImages : Int) (clearColor : VROVector4f)
    (ctx : Context) : World :=
  { self := { type := type, viewport := zeroViewport, clearColor := clearColor,
              texture := none, framebuffer := 0, depthStencilbuffer := 0, colorbuffer := 0,
              numImages := numImages },
    ctx := ctx }

/-- The method `hasTextureAttached`: `_texture != nullptr`. -/
def hasTextureAttached (w : World) : Bool := w.self.texture.isSome

/-- The method `getTexture`. -/
def getTexture (w : World) : Option VROTexture := w.self.texture

/-- The passert condition `_viewport.getWidth() > 0 && _viewport.getHeight() > 0`. -/
def positiveViewport (w : World) : Bool :=
  decide (w.self.viewport.width > 0) && decide (w.self.viewport.height > 0)

/-- The method `bind`: bind the framebuffer, then set viewport and scissor.  The body has
no check and no abort path. -/
def bind (w : World) : World :=
  w.issueAll
    [ .glBindFramebuffer GL_FRAMEBUFFER w.self.framebuffer,
      .glViewport w.self.viewport.x w.self.viewport.y w.self.viewport.width w.self.viewport.height,
      .glScissor w.self.viewport.x w.self.viewport.y w.self.viewport.width w.self.viewport.height ]

/-- The method `getTextureAttachmentType`: the attachment point of the kind, 0 for a kind
that has none. -/
def getTextureAttachmentType (w : World) : Nat :=
  match w.self.type with
  | .ColorTexture => GL_COLOR_ATTACHMENT0
  | .DepthTexture => GL_DEPTH_ATTACHMENT
  | .DepthTextureArray => GL_DEPTH_ATTACHMENT
  | .Renderbuffer => 0

/-- The method `getTextureName`: 0 when the driver is gone, 0 when no texture is stored,
abort when the texture's substrate is not an OpenGL one, else the substrate's name. -/
def getTextureName (w : World) : Except Abort Nat :=
  match w.ctx.driver with
  | none => .ok 0
  | some _ =>
    match w.self.texture with
    | none => .ok 0
    | some t =>
      match t.substrate with
      | none => .error ⟨"passert (oglSubstrate != nullptr)", w⟩
      | some sub => .ok sub.name

/-! ## Lifecycle -/

/-- The method `discardFramebuffers`: delete each handle that is nonzero and zero it, then
reset the texture reference.  No abort path. -/
def discardFramebuffers (w : World) : World :=
  let w1 : World :=
    if w.self.framebuffer ≠ 0 then
      { self := { w.self with framebuffer := 0 },
        ctx := (w.issue (.glDeleteFramebuffers w.self.framebuffer)).ctx }
    else w
  let w2 : World :=
    if w1.self.colorbuffer ≠ 0 then
      { self := { w1.self with colorbuffer := 0 },
        ctx := (w1.issue (.glDeleteRenderbuffers w1.self.colorbuffer)).ctx }
    else w1
  let w3 : World :=
    if w2.self.depthStencilbuffer ≠ 0 then
      { self := { w2.self with depthStencilbuffer := 0 },
        ctx := (w2.issue (.glDeleteRenderbuffers w2.self.depthStencilbuffer)).ctx }
    else w2
  { w3 with self := { w3.self with texture := none } }

/-- The tail of `attachNewTexture`: wrap `(target, texName)` in a new OpenGL substrate,
make a new texture object around it and store the reference in `_texture`. -/
def storeNewTexture (target texName : Nat) (w : World) : World :=
  { self := { w.self with
      texture := some { id := w.ctx.objects + 1,
                        substrate := some { target := target, name := texName } } },
    ctx := { w.ctx with objects := w.ctx.objects + 1 } }

/-- The method `attachNewTexture`. -/
def attachNewTexture (status : List GLCall → Nat) (w : World) : Except Abort World :=
  match w.ctx.driver with
  | none => .ok w
  | some _ =>
    if ¬ positiveViewport w then
      .error ⟨"Must invoke setViewport before using a render target", w⟩
    else
      match w.self.type with
      | .ColorTexture =>
        let w1 := w.issue (.glBindFramebuffer GL_FRAMEBUFFER w.self.framebuffer)
        let g := w1.gen .glGenTextures
        let texName := g.1
        let w2 := g.2.issueAll
          [ .glBindTexture GL_TEXTURE_2D texName,
            .glTexParameterf GL_TEXTURE_2D GL_TEXTURE_MAG_FILTER GL_LINEAR,
            .glTexParameterf GL_TEXTURE_2D GL_TEXTURE_MIN_FILTER GL_LINEAR,
            .glTexParameterf GL_TEXTURE_2D GL_TEXTURE_WRAP_S GL_CLAMP_TO_EDGE,
            .glTexParameterf GL_TEXTURE_2D GL_TEXTURE_WRAP_T GL_CLAMP_TO_EDGE,
            .glTexImage2D GL_TEXTURE_2D 0 GL_RGBA w.self.viewport.width w.self.viewport.height 0
              GL_RGBA GL_UNSIGNED_BYTE,
            .glBindTexture GL_TEXTURE_2D 0,
            .glFramebufferTexture2D GL_FRAMEBUFFER GL_COLOR_ATTACHMENT0 GL_TEXTURE_2D texName 0 ]
        let w3 : World :=
          if w2.self.depthStencilbuffer = 0 then
            let h := w2.gen .glGenRenderbuffers
            { self := { h.2.self with depthStencilbuffer := h.1 },
              ctx := (h.2.issueAll
                [ .glBindRenderbuffer GL_RENDERBUFFER h.1,
                  .glRenderbufferStorage GL_RENDERBUFFER GL_DEPTH24_STENCIL8_OES
                    w.self.viewport.width w.self.viewport.height,
                  .glFramebufferRenderbuffer GL_FRAMEBUFFER GL_DEPTH_ATTACHMENT
                    GL_RENDERBUFFER h.1,
                  .glFramebufferRenderbuffer GL_FRAMEBUFFER GL_STENCIL_ATTACHMENT
                    GL_RENDERBUFFER h.1 ]).ctx }
          else w2
        if status w3.ctx.calls ≠ GL_FRAMEBUFFER_COMPLETE then
          .error ⟨"Failed to make complete resolve framebuffer object", w3⟩
        else
          .ok (storeNewTexture GL_TEXTURE_2D texName w3)
      | .DepthTexture =>
        let w1 := w.issue (.glBindFramebuffer GL_FRAMEBUFFER w.self.framebuffer)
        let g := w1.gen .glGenTextures
        let texName := g.1
        let w2 := g.2.issueAll
          [ .glBindTexture GL_TEXTURE_2D texName,
            .glTexParameteri GL_TEXTURE_2D GL_TEXTURE_MAG_FILTER GL_LINEAR,
            .glTexParameteri GL_TEXTURE_2D GL_TEXTURE_MIN_FILTER GL_LINEAR,
            .glTexParameteri GL_TEXTURE_2D GL_TEXTURE_WRAP_S GL_CLAMP_TO_EDGE,
            .glTexParameteri GL_TEXTURE_2D GL_TEXTURE_WRAP_T GL_CLAMP_TO_EDGE,
            .glTexParameteri GL_TEXTURE_2D GL_TEXTURE_COMPARE_MODE GL_COMPARE_REF_TO_TEXTURE,
            .glTexParameteri GL_TEXTURE_2D GL_TEXTURE_COMPARE_FUNC GL_LEQUAL,
            .glTexImage2D GL_TEXTURE_2D 0 GL_DEPTH_COMPONENT16 w.self.viewport.width
              w.self.viewport.height 0 GL_DEPTH_COMPONENT GL_UNSIGNED_INT,
            .glBindTexture GL_TEXTURE_2D 0,
            .glFramebufferTexture2D GL_FRAMEBUFFER GL_DEPTH_ATTACHMENT GL_TEXTURE_2D texName 0 ]
        if status w2.ctx.calls ≠ GL_FRAMEBUFFER_COMPLETE then
          .error ⟨"Failed to make complete resolve depth framebuffer object", w2⟩
        else
          .ok (storeNewTexture GL_TEXTURE_2D texName w2)
      | .DepthTextureArray =>
        let w1 := w.issue (.glBindFramebuffer GL_FRAMEBUFFER w.self.framebuffer)
        let g := w1.gen .glGenTextures
        let texName := g.1
        let w2 := g.2.issueAll
          [ .glBindTexture GL_TEXTURE_2D_ARRAY texName,
            .glTexParameteri GL_TEXTURE_2D_ARRAY GL_TEXTURE_MAG_FILTER GL_LINEAR,
            .glTexParameteri GL_TEXTURE_2D_ARRAY GL_TEXTURE_MIN_FILTER GL_LINEAR,
            .glTexParameteri GL_TEXTURE_2D_ARRAY GL_TEXTURE_WRAP_S GL_CLAMP_TO_EDGE,
            .glTexParameteri GL_TEXTURE_2D_ARRAY GL_TEXTURE_WRAP_T GL_CLAMP_TO_EDGE,
            .glTexParameteri GL_TEXTURE_2D_ARRAY GL_TEXTURE_BASE_LEVEL 0,
            .glTexParameteri GL_TEXTURE_2D_ARRAY GL_TEXTURE_MAX_LEVEL 1,
            .glTexParameteri GL_TEXTURE_2D_ARRAY GL_TEXTURE_COMPARE_MODE
              GL_COMPARE_REF_TO_TEXTURE,
            .glTexParameteri GL_TEXTURE_2D_ARRAY GL_TEXTURE_COMPARE_FUNC GL_LEQUAL,
            .glTexImage3D GL_TEXTURE_2D_ARRAY 0 GL_DEPTH_COMPONENT16 w.self.viewport.width
              w.self.viewport.height w.self.numImages 0 GL_DEPTH_COMPONENT GL_UNSIGNED_INT,
            .glBindTexture GL_TEXTURE_2D_ARRAY 0,
            .glFramebufferTextureLayer GL_FRAMEBUFFER GL_DEPTH_ATTACHMENT texName 0 0 ]
        if status w2.ctx.calls ≠ GL_FRAMEBUFFER_COMPLETE then
          .error ⟨"Failed to make complete resolve depth framebuffer object", w2⟩
        else
          .ok (storeNewTexture GL_TEXTURE_2D_ARRAY texName w2)
      | .Renderbuffer =>
        .error ⟨"FBO does not have a texture type, cannot create texture", w⟩

/-- The method `createColorDepthRenderbuffers`.  The colour renderbuffer's name goes to
the local variable `colorRenderbuffer`; the field `_colorbuffer` is not assigned. -/
def createColorDepthRenderbuffers (status : List GLCall → Nat) (w : World) :
    Except Abort World :=
  if ¬ positiveViewport w then
    .error ⟨"Must invoke setViewport before using a render target", w⟩
  else
    let f := w.gen .glGenFramebuffers
    let w1 : World := { self := { f.2.self with framebuffer := f.1 }, ctx := f.2.ctx }
    let w2 := w1.issue (.glBindFramebuffer GL_FRAMEBUFFER w1.self.framebuffer)
    let c := w2.gen .glGenRenderbuffers
    let colorRenderbuffer := c.1
    let w3 := c.2.issueAll
      [ .glBindRenderbuffer GL_RENDERBUFFER colorRenderbuffer,
        .glRenderbufferStorage GL_RENDERBUFFER GL_RGBA8_OES
          w.self.viewport.width w.self.viewport.height,
        .glFramebufferRenderbuffer GL_FRAMEBUFFER GL_COLOR_ATTACHMENT0 GL_RENDERBUFFER
          colorRenderbuffer ]
    let d := w3.gen .glGenRenderbuffers
    let w4 : World := { self := { d.2.self with depthStencilbuffer := d.1 }, ctx := d.2.ctx }
    let w5 := w4.issueAll
      [ .glBindRenderbuffer GL_RENDERBUFFER w4.self.depthStencilbuffer,
        .glRenderbufferStorage GL_RENDERBUFFER GL_DEPTH24_STENCIL8_OES
          w.self.viewport.width w.self.viewport.height,
        .glFramebufferRenderbuffer GL_FRAMEBUFFER GL_DEPTH_ATTACHMENT GL_RENDERBUFFER
          w4.self.depthStencilbuffer,
        .glFramebufferRenderbuffer GL_FRAMEBUFFER GL_STENCIL_ATTACHMENT GL_RENDERBUFFER
          w4.self.depthStencilbuffer ]
    if status w5.ctx.calls ≠ GL_FRAMEBUFFER_COMPLETE then
      .error ⟨"Failed to create offscreen render buffer", w5⟩
    else
      .ok w5

/-- The method `createColorTextureTarget`. -/
def createColorTextureTarget (status : List GLCall → Nat) (w : World) :
    Except Abort World :=
  if ¬ positiveViewport w then
    .error ⟨"Must invoke setViewport before using a render target", w⟩
  else
    let f := w.gen .glGenFramebuffers
    let w1 : World := { self := { f.2.self with framebuffer := f.1 }, ctx := f.2.ctx }
    match attachNewTexture status w1 with
    | .error e => .error e
    | .ok w2 =>
      if status w2.ctx.calls ≠ GL_FRAMEBUFFER_COMPLETE then
        .error ⟨"Failed to create color texture render target", w2⟩
      else
        .ok w2

/-- The method `createDepthTextureTarget`.  As in `createColorDepthRenderbuffers`, the
colour renderbuffer's name stays in a local variable. -/
def createDepthTextureTarget (status : List GLCall → Nat) (w : World) :
    Except Abort World :=
  if ¬ positiveViewport w then
    .error ⟨"Must invoke setViewport before using a render target", w⟩
  else
    let f := w.gen .glGenFramebuffers
    let w1 : World := { self := { f.2.self with framebuffer := f.1 }, ctx := f.2.ctx }
    match attachNewTexture status w1 with
    | .error e => .error e
    | .ok w2 =>
      let c := w2.gen .glGenRenderbuffers
      let colorRenderbuffer := c.1
      let w3 := c.2.issueAll
        [ .glBindRenderbuffer GL_RENDERBUFFER colorRenderbuffer,
          .glRenderbufferStorage GL_RENDERBUFFER GL_RGBA8_OES
            w2.self.viewport.width w2.self.viewport.height,
          .glFramebufferRenderbuffer GL_FRAMEBUFFER GL_COLOR_ATTACHMENT0 GL_RENDERBUFFER
            colorRenderbuffer ]
      if status w3.ctx.calls ≠ GL_FRAMEBUFFER_COMPLETE then
        .error ⟨"Failed to create depth texture render target", w3⟩
      else
        .ok w3

/-- The method `restoreFramebuffers`: the kind-specific creation with the stored viewport. -/
def restoreFramebuffers (status : List GLCall → Nat) (w : World) : Except Abort World :=
  match w.self.type with
  | .Renderbuffer => createColorDepthRenderbuffers status w
  | .ColorTexture => createColorTextureTarget status w
  | .DepthTexture => createDepthTextureTarget status w
  | .DepthTextureArray => createDepthTextureTarget status w

/-- The method `setViewport`: remember the previous size as floats, store the new
viewport, and when a size differs discard and create again. -/
def setViewport (status : List GLCall → Nat) (viewport : VROViewport) (w : World) :
    Except Abort World :=
  let previousWidth := toFloat w.self.viewport.width
  let previousHeight := toFloat w.self.viewport.height
  let w1 : World := { w with self := { w.self with viewport := viewport } }
  if previousWidth ≠ toFloat viewport.width ∨ previousHeight ≠ toFloat viewport.height then
    let w2 := discardFramebuffers w1
    match w2.self.type with
    | .Renderbuffer => createColorDepthRenderbuffers status w2
    | .ColorTexture => createColorTextureTarget status w2
    | .DepthTexture => createDepthTextureTarget status w2
    | .DepthTextureArray => createDepthTextureTarget status w2
  else
    .ok w1

/-! ## Texture attachments -/

/-- The method `clearTexture`: reset the reference, require an attachment point, bind the
framebuffer and attach texture 0. -/
def clearTexture (w : World) : Except Abort World :=
  let w1 : World := { w with self := { w.self with texture := none } }
  let attachment := getTextureAttachmentType w1
  if attachment = 0 then
    .error ⟨"passert (attachment != 0)", w1⟩
  else
    .ok (w1.issueAll
      [ .glBindFramebuffer GL_FRAMEBUFFER w1.self.framebuffer,
        .glFramebufferTexture2D GL_FRAMEBUFFER attachment GL_TEXTURE_2D 0 0 ])

/-- The method `attachTexture`: store the reference first, then look up its name, require
an attachment point, bind the framebuffer and attach by kind.  The argument is a
`shared_ptr`, so it may be null (`none`). -/
def attachTexture (texture : Option VROTexture) (w : World) : Except Abort World :=
  let w1 : World := { w with self := { w.self with texture := texture } }
  match getTextureName w1 with
  | .error e => .error e
  | .ok name =>
    let attachment := getTextureAttachmentType w1
    if attachment = 0 then
      .error ⟨"passert (attachment != 0)", w1⟩
    else
      let w2 := w1.issue (.glBindFramebuffer GL_FRAMEBUFFER w1.self.framebuffer)
      if w2.self.type = .ColorTexture ∨ w2.self.type = .DepthTexture then
        .ok (w2.issue (.glFramebufferTexture2D GL_FRAMEBUFFER attachment GL_TEXTURE_2D name 0))
      else if w2.self.type = .DepthTextureArray then
        .ok (w2.issue (.glFramebufferTextureLayer GL_FRAMEBUFFER attachment name 0 0))
      else
        .error ⟨"pabort", w2⟩

/-- The method `setTextureImageIndex`: look up the texture name, require an attachment
point and the array kind, bind the framebuffer and attach layer `index`.  The index is
passed on as it is. -/
def setTextureImageIndex (index : Int) (w : World) : Except Abort World :=
  match getTextureName w with
  | .error e => .error e
  | .ok name =>
    let attachment := getTextureAttachmentType w
    if attachment = 0 then
      .error ⟨"passert (attachment != 0)", w⟩
    else if w.self.type ≠ .DepthTextureArray then
      .error ⟨"passert (_type == VRORenderTargetType::DepthTextureArray)", w⟩
    else
      .ok (w.issueAll
        [ .glBindFramebuffer GL_FRAMEBUFFER w.self.framebuffer,
          .glFramebufferTextureLayer GL_FRAMEBUFFER attachment name 0 index ])

/-! ## Rendering operations -/

/-- The driver call `setDepthWritingEnabled(enabled)` on the locked driver: the call is
recorded in the call stream and the driver's flag takes the value. -/
def driverSetDepthWritingEnabled (enabled : Bool) (w : World) : World :=
  { w with ctx := { w.ctx with
      calls := w.ctx.calls ++ [.setDepthWritingEnabled enabled],
      driver := w.ctx.driver.map fun d => { d with depthWritingEnabled := enabled } } }

/-- The driver call `setColorWritingEnabled(enabled)` on the locked driver. -/
def driverSetColorWritingEnabled (enabled : Bool) (w : World) : World :=
  { w with ctx := { w.ctx with
      calls := w.ctx.calls ++ [.setColorWritingEnabled enabled],
      driver := w.ctx.driver.map fun d => { d with colorWritingEnabled := enabled } } }

/-- The method `clearStencil`. -/
def clearStencil (bits : Int) (w : World) : World :=
  match w.ctx.driver with
  | none => w
  | some _ =>
    w.issueAll [ .glStencilMask 0xFF, .glClearStencil bits, .glClear GL_STENCIL_BUFFER_BIT ]

/-- The method `clearDepth`. -/
def clearDepth (w : World) : World :=
  match w.ctx.driver with
  | none => w
  | some _ =>
    (driverSetDepthWritingEnabled true w).issue (.glClear GL_DEPTH_BUFFER_BIT)

/-- The method `clearColor`. -/
def clearColor (w : World) : World :=
  match w.ctx.driver with
  | none => w
  | some _ =>
    (driverSetColorWritingEnabled true w).issueAll
      [ .glClearColor w.self.clearColor.x w.self.clearColor.y w.self.clearColor.z
          w.self.clearColor.w,
        .glClear GL_COLOR_BUFFER_BIT ]

/-- The method `clearDepthAndColor`. -/
def clearDepthAndColor (w : World) : World :=
  match w.ctx.driver with
  | none => w
  | some _ =>
    (driverSetColorWritingEnabled true (driverSetDepthWritingEnabled true w)).issueAll
      [ .glClearColor w.self.clearColor.x w.self.clearColor.y w.self.clearColor.z
          w.self.clearColor.w,
        .glClear (GL_COLOR_BUFFER_BIT ||| GL_DEPTH_BUFFER_BIT) ]

/-- The function `toGL`. -/
def toGL (face : VROFace) : Nat :=
  match face with
  | .Front => GL_FRONT
  | .Back => GL_BACK
  | .FrontAndBack => GL_FRONT_AND_BACK

/-- The method `enablePortalStencilWriting`. -/
def enablePortalStencilWriting (face : VROFace) (w : World) : World :=
  w.issueAll
    [ .glStencilOpSeparate (toGL face) GL_KEEP GL_KEEP GL_INCR,
      .glStencilMaskSeparate (toGL face) 0xFF ]

/-- The method `enablePortalStencilRemoval`. -/
def enablePortalStencilRemoval (face : VROFace) (w : World) : World :=
  w.issueAll
    [ .glStencilOpSeparate (toGL face) GL_KEEP GL_KEEP GL_DECR,
      .glStencilMaskSeparate (toGL face) 0xFF ]

/-- The method `disablePortalStencilWriting`. -/
def disablePortalStencilWriting (face : VROFace) (w : World) : World :=
  w.issueAll
    [ .glStencilOpSeparate (toGL face) GL_KEEP GL_KEEP GL_KEEP,
      .glStencilMaskSeparate (toGL face) 0x00 ]

/-- The method `setStencilPassBits`. -/
def setStencilPassBits (face : VROFace) (bits : Int) (passIfLess : Bool) (w : World) : World :=
  if passIfLess then
    w.issue (.glStencilFuncSeparate (toGL face) GL_LEQUAL bits 0xFF)
  else
    w.issue (.glStencilFuncSeparate (toGL face) GL_EQUAL bits 0xFF)

/-! ## The backend's stencil semantics (OpenGL ES, 8-bit stencil buffer)

What the backend does with the stencil state the calls above configure.  This is the
behaviour of the graphics backend, stated here from the OpenGL ES specification so that
claims about which fragments pass can be expressed. -/

/-- The reference value as the backend uses it: clamped to the range of the 8-bit
stencil buffer. -/
def clampRef (ref : Int) : Nat :=
  if ref < 0 then 0 else if ref > 255 then 255 else ref.toNat

/-- The stencil test: the masked reference value stands on the left of the comparison,
the masked stored value on the right (for `GL_LEQUAL`: pass when
`(ref & mask) <= (stencil & mask)`). -/
def stencilTestPasses (func : Nat) (ref : Int) (mask : Nat) (stored : Nat) : Bool :=
  let r := clampRef ref &&& mask
  let s := stored &&& mask
  if func = GL_NEVER then false
  else if func = GL_LESS then decide (r < s)
  else if func = GL_LEQUAL then decide (r ≤ s)
  else if func = GL_GREATER then decide (r > s)
  else if func = GL_GEQUAL then decide (r ≥ s)
  else if func = GL_EQUAL then decide (r = s)
  else if func = GL_NOTEQUAL then decide (r ≠ s)
  else true

/-- The stencil comparison configured for one side of a polygon. -/
structure StencilFunc where
  func : Nat
  ref : Int
  mask : Nat
  deriving DecidableEq, Repr

/-- Whether a face argument of a `gl*Separate` call covers the given side (`back = true`
for back-facing polygons). -/
def coversSide (glface : Nat) (back : Bool) : Bool :=
  glface = GL_FRONT_AND_BACK || (if back then glface = GL_BACK else glface = GL_FRONT)

/-- One call's effect on the stencil comparison of a side. -/
def stencilFuncStep (back : Bool) (st : StencilFunc) (c : GLCall) : StencilFunc :=
  match c with
  | .glStencilFuncSeparate face func ref mask =>
    if coversSide face back then { func := func, ref := ref, mask := mask } else st
  | _ => st

/-- The stencil comparison in force for a side after a stream of calls, starting from the
backend's initial state (`GL_ALWAYS`, reference 0, mask all ones). -/
def stencilFuncAfter (calls : List GLCall) (back : Bool) : StencilFunc :=
  calls.foldl (stencilFuncStep back) { func := GL_ALWAYS, ref := 0, mask := 0xFF }

/-- Whether a fragment on the given side passes the stencil test in force after `calls`,
when the stencil buffer holds `stored` at its pixel. -/
def fragmentPasses (calls : List GLCall) (back : Bool) (stored : Nat) : Bool :=
  let f := stencilFuncAfter calls back
  stencilTestPasses f.func f.ref f.mask stored

/-- One call's effect on the set of renderbuffer objects alive in the backend: a generated
name is alive until it is deleted. -/
def liveRenderbuffersStep (live : List Nat) (c : GLCall) : List Nat :=
  match c with
  | .glGenRenderbuffers name => live ++ [name]
  | .glDeleteRenderbuffers name => live.filter (fun n => decide (n ≠ name))
  | _ => live

/-- The renderbuffer objects alive after a stream of calls that began with none. -/
def liveRenderbuffers (calls : List GLCall) : List Nat :=
  calls.foldl liveRenderbuffersStep []

/-- One call's effect on the set of framebuffer objects alive in the backend. -/
def liveFramebuffersStep (live : List Nat) (c : GLCall) : List Nat :=
  match c with
  | .glGenFramebuffers name => live ++ [name]
  | .glDeleteFramebuffers name => live.filter (fun n => decide (n ≠ name))
  | _ => live

/-- The framebuffer objects alive after a stream of calls that began with none. -/
def liveFramebuffers (calls : List GLCall) : List Nat :=
  calls.foldl liveFramebuffersStep []

/-! ## Public operations as a transition system -/

/-- The public operations of a render target, with their arguments. -/
inductive Op where
  | setViewport (viewport : VROViewport)
  | restoreFramebuffers
  | discardFramebuffers
  | attachNewTexture
  | attachTexture (texture : Option VROTexture)
  | clearTexture
  | setTextureImageIndex (index : Int)
  | bind
  | clearStencil (bits : Int)
  | clearDepth
  | clearColor
  | clearDepthAndColor
  | enablePortalStencilWriting (face : VROFace)
  | enablePortalStencilRemoval (face : VROFace)
  | disablePortalStencilWriting (face : VROFace)
  | setStencilPassBits (face : VROFace) (bits : Int) (passIfLess : Bool)
  deriving DecidableEq, Repr

/-- Run one public operation: `.error` when it aborts, else the world it leaves. -/
def run (status : List GLCall → Nat) (op : Op) (w : World) : Except Abort World :=
  match op with
  | .setViewport v => setViewport status v w
  | .restoreFramebuffers => restoreFramebuffers status w
  | .discardFramebuffers => .ok (discardFramebuffers w)
  | .attachNewTexture => attachNewTexture status w
  | .attachTexture t => attachTexture t w
  | .clearTexture => clearTexture w
  | .setTextureImageIndex i => setTextureImageIndex i w
  | .bind => .ok (bind w)
  | .clearStencil bits => .ok (clearStencil bits w)
  | .clearDepth => .ok (clearDepth w)
  | .clearColor => .ok (clearColor w)
  | .clearDepthAndColor => .ok (clearDepthAndColor w)
  | .enablePortalStencilWriting f => .ok (enablePortalStencilWriting f w)
  | .enablePortalStencilRemoval f => .ok (enablePortalStencilRemoval f w)
  | .disablePortalStencilWriting f => .ok (disablePortalStencilWriting f w)
  | .setStencilPassBits f bits p => .ok (setStencilPassBits f bits p w)

/-- The worlds reachable from construction: a new target in any context, then any
sequence of public operations that did not abort, interleaved with arbitrary changes of
the surroundings (the driver going away, other clients of the backend). -/
inductive Reachable (status : List GLCall → Nat) : World → Prop where
  | construct (type : VRORenderTargetType) (numImages : Int) (clearColor : VROVector4f)
      (ctx : Context) : Reachable status (construct type numImages clearColor ctx)
  | step (op : Op) (w w2 : World) :
      Reachable status w → run status op w = .ok w2 → Reachable status w2
  | surroundings (w : World) (ctx : Context) :
      Reachable status w → Reachable status { w with ctx := ctx }

/-- Whether a kind is texture-backed. -/
def textureBacked (t : VRORenderTargetType) : Bool :=
  match t with
  | .Renderbuffer => false
  | _ => true

/-- The delete calls that release the handles an object holds, in the order in which
`discardFramebuffers` issues them: one call per handle that is present. -/
def teardownCalls (t : VRORenderTargetOpenGL) : List GLCall :=
  (if t.framebuffer ≠ 0 then [GLCall.glDeleteFramebuffers t.framebuffer] else []) ++
  (if t.colorbuffer ≠ 0 then [GLCall.glDeleteRenderbuffers t.colorbuffer] else []) ++
  (if t.depthStencilbuffer ≠ 0 then [GLCall.glDeleteRenderbuffers t.depthStencilbuffer] else [])

/-! ## Concrete worlds used to exercise the theorems -/

/-- A backend that reports every framebuffer complete. -/
def alwaysComplete : List GLCall → Nat := fun _ => GL_FRAMEBUFFER_COMPLETE

/-- A context with a live driver (both write masks disabled) and nothing issued yet. -/
def liveContext : Context :=
  { calls := [], names := 0, objects := 0,
    driver := some { depthWritingEnabled := false, colorWritingEnabled := false } }

/-- Opaque black, as bit patterns of 0.0, 0.0, 0.0, 1.0. -/
def black : VROVector4f := { x := 0, y := 0, z := 0, w := 0x3F800000 }

/-- The world an operation leaves behind, whether it completed or aborted. -/
def worldOf (r : Except Abort World) : World :=
  match r with
  | .ok w => w
  | .error a => a.world

/-- Whether the texture an object holds, if any, is one of the objects the heap has handed
out so far.  Holds in every world built by the program, since a texture object exists
before a reference to it can be stored. -/
def heapConsistent (w : World) : Bool :=
  match w.self.texture with
  | none => true
  | some t => decide (t.id ≤ w.ctx.objects)

/-- A colour-texture target after `setViewport` with 512 x 512 on a new target, driver
alive, backend reporting completeness. -/
def createdColorTarget : World :=
  worldOf (setViewport alwaysComplete ⟨0, 0, 512, 512⟩ (construct .ColorTexture 1 black liveContext))

/-- A depth-texture-array target with 4 layers after `setViewport` with 256 x 256 on a new
target, driver alive, backend reporting completeness. -/
def createdArrayTarget : World :=
  worldOf (setViewport alwaysComplete ⟨0, 0, 256, 256⟩
    (construct .DepthTextureArray 4 black liveContext))

/-- A renderbuffer target after `setViewport` with 256 x 256 on a new target, driver alive,
backend reporting completeness. -/
def createdRenderbufferTarget : World :=
  worldOf (setViewport alwaysComplete ⟨0, 0, 256, 256⟩ (construct .Renderbuffer 1 black liveContext))

/-- A depth-texture target after `setViewport` with 256 x 256 on a new target, driver
alive, backend reporting completeness. -/
def createdDepthTarget : World :=
  worldOf (setViewport alwaysComplete ⟨0, 0, 256, 256⟩ (construct .DepthTexture 1 black liveContext))

/-- The same world after the driver has gone away: `_driver.lock()` now returns null. -/
def driverGone (w : World) : World := { w with ctx := { w.ctx with driver := none } }

/-! ## Auxiliary facts -/

/-- The int 0 converts to the float 0. -/
theorem toFloat_zero : toFloat 0 = 0 := by
  simp [toFloat, toFloatNat]

/-- Rounding to the nearest float keeps a positive number positive. -/
theorem toFloatNat_pos (m : Nat) (h : 0 < m) : 0 < toFloatNat m := by
  unfold toFloatNat
  split
  · exact h
  · rename_i hm
    have hne : m ≠ 0 := by omega
    have hle : 2 ^ (Nat.log2 m - 23) ≤ m :=
      le_trans (Nat.pow_le_pow_right (by norm_num) (Nat.sub_le _ _)) (Nat.log2_self_le hne)
    have hq : 0 < m / 2 ^ (Nat.log2 m - 23) := Nat.div_pos hle (by positivity)
    have hp : 0 < 2 ^ (Nat.log2 m - 23) := by positivity
    simp only []
    split
    · exact Nat.mul_pos (by omega) hp
    · exact Nat.mul_pos hq hp

/-- Conversion to float keeps the sign: the float is positive exactly when the int is. -/
theorem toFloat_pos_iff (n : Int) : 0 < toFloat n ↔ 0 < n := by
  unfold toFloat
  split
  · rename_i h
    have : (0:Int) ≤ ((toFloatNat n.natAbs : Nat) : Int) := Int.ofNat_nonneg _
    constructor <;> intro h2 <;> omega
  · rename_i h
    constructor
    · intro h2
      by_contra hc
      have h0 : n = 0 := by omega
      subst h0
      simp [toFloatNat] at h2
    · intro h2
      have : 0 < n.natAbs := by omega
      have := toFloatNat_pos _ this
      exact_mod_cast this

/-- Conversion to float is exact below 2^24 in magnitude. -/
theorem toFloat_of_small (n : Int) (h : n.natAbs < 2 ^ 24) : toFloat n = n := by
  unfold toFloat toFloatNat
  simp only [h, if_true]
  split <;> omega

/-- The passert condition, as a proposition. -/
theorem positiveViewport_iff (w : World) :
    positiveViewport w = true ↔ 0 < w.self.viewport.width ∧ 0 < w.self.viewport.height := by
  simp [positiveViewport]

/-- The whole effect of `discardFramebuffers`: the three handles become 0, the texture
reference becomes null, and exactly the delete calls for the handles that were present are
issued. -/
theorem discardFramebuffers_eq (w : World) :
    discardFramebuffers w =
      { self := { w.self with framebuffer := 0, colorbuffer := 0, depthStencilbuffer := 0,
                              texture := none },
        ctx := { w.ctx with calls := w.ctx.calls ++ teardownCalls w.self } } := by
  unfold discardFramebuffers teardownCalls
  by_cases h1 : w.self.framebuffer = 0 <;> by_cases h2 : w.self.colorbuffer = 0 <;>
    by_cases h3 : w.self.depthStencilbuffer = 0 <;>
    simp [h1, h2, h3, World.issue]

/-- What a completed `attachNewTexture` has done. -/
theorem attachNewTexture_ok (status : List GLCall → Nat) (w w2 : World)
    (h : attachNewTexture status w = .ok w2) :
    w2.self.viewport = w.self.viewport ∧ w2.self.type = w.self.type ∧
    w2.self.framebuffer = w.self.framebuffer ∧ w2.self.colorbuffer = w.self.colorbuffer ∧
    w2.ctx.driver = w.ctx.driver ∧
    (∃ rest, w2.ctx.calls = w.ctx.calls ++ rest) ∧
    (w.ctx.driver = none → w2 = w) ∧
    (∀ d, w.ctx.driver = some d →
      positiveViewport w = true ∧ textureBacked w.self.type = true ∧
      w2.ctx.objects = w.ctx.objects + 1 ∧
      (∃ sub, w2.self.texture = some { id := w.ctx.objects + 1, substrate := some sub }) ∧
      (w2.self.depthStencilbuffer ≠ 0 ↔
        (w.self.depthStencilbuffer ≠ 0 ∨ w.self.type = .ColorTexture))) := by
  cases hd : w.ctx.driver with
  | none =>
    simp only [attachNewTexture, hd] at h
    cases h
    simp [hd]
  | some d =>
    by_cases hp : positiveViewport w = true
    · cases ht : w.self.type <;>
        simp only [attachNewTexture, hd, hp, ht, not_true_eq_false, if_false] at h
      · cases h
      · by_cases hds : w.self.depthStencilbuffer = 0 <;>
          simp only [World.issue, World.issueAll, World.gen, hds, if_true, if_false] at h <;>
          split at h <;>
          first
            | (cases h; done)
            | (obtain rfl := Except.ok.inj h
               simp [hd, hp, ht, hds, storeNewTexture, textureBacked])
      · split at h <;>
          first
            | (cases h; done)
            | (obtain rfl := Except.ok.inj h
               simp [hd, hp, ht, storeNewTexture, World.issue, World.issueAll, World.gen, textureBacked])
      · split at h <;>
          first
            | (cases h; done)
            | (obtain rfl := Except.ok.inj h
               simp [hd, hp, ht, storeNewTexture, World.issue, World.issueAll, World.gen, textureBacked])
    · simp only [attachNewTexture, hd, hp] at h
      cases h

/-- What a completed `createColorDepthRenderbuffers` has done. -/
theorem createColorDepthRenderbuffers_ok (status : List GLCall → Nat) (w w2 : World)
    (h : createColorDepthRenderbuffers status w = .ok w2) :
    positiveViewport w = true ∧
    w2.self.viewport = w.self.viewport ∧ w2.self.type = w.self.type ∧
    w2.self.framebuffer = w.ctx.names + 1 ∧ w2.self.depthStencilbuffer = w.ctx.names + 3 ∧
    w2.self.colorbuffer = w.self.colorbuffer ∧ w2.self.texture = w.self.texture ∧
    w2.ctx.driver = w.ctx.driver ∧ w2.ctx.objects = w.ctx.objects ∧
    (∃ rest, w2.ctx.calls = w.ctx.calls ++ rest) := by
  by_cases hp : positiveViewport w = true
  · simp only [createColorDepthRenderbuffers, hp, not_true_eq_false, if_false, World.issue,
      World.issueAll, World.gen] at h
    split at h <;>
      first
        | (cases h; done)
        | (obtain rfl := Except.ok.inj h
           simp [hp])
  · simp only [createColorDepthRenderbuffers, hp] at h
    cases h

/-- What a completed `createColorTextureTarget` has done. -/
theorem createColorTextureTarget_ok (status : List GLCall → Nat) (w w2 : World)
    (h : createColorTextureTarget status w = .ok w2) :
    positiveViewport w = true ∧
    w2.self.viewport = w.self.viewport ∧ w2.self.type = w.self.type ∧
    w2.self.framebuffer = w.ctx.names + 1 ∧
    w2.self.colorbuffer = w.self.colorbuffer ∧
    w2.ctx.driver = w.ctx.driver ∧
    (∃ rest, w2.ctx.calls = w.ctx.calls ++ rest) ∧
    (w.ctx.driver = none → w2.self.texture = w.self.texture ∧
      w2.self.depthStencilbuffer = w.self.depthStencilbuffer) ∧
    (∀ d, w.ctx.driver = some d →
      textureBacked w.self.type = true ∧
      (∃ sub, w2.self.texture = some { id := w.ctx.objects + 1, substrate := some sub }) ∧
      (w2.self.depthStencilbuffer ≠ 0 ↔
        (w.self.depthStencilbuffer ≠ 0 ∨ w.self.type = .ColorTexture))) := by
  by_cases hp : positiveViewport w = true
  · simp only [createColorTextureTarget, hp, not_true_eq_false, if_false] at h
    split at h
    · cases h
    · rename_i w1 hA
      have hA2 := attachNewTexture_ok status _ _ hA
      simp only [World.gen] at hA2
      obtain ⟨a1, a2, a3, a4, a5, ⟨rest, a6⟩, a7, a8⟩ := hA2
      split at h
      · cases h
      · obtain rfl := Except.ok.inj h
        refine ⟨hp, a1, a2, a3, a4, a5, ⟨GLCall.glGenFramebuffers (w.ctx.names + 1) :: rest, by simp [a6]⟩, ?_, ?_⟩
        · intro hn
          have := a7 hn
          simp [this]
        · intro d hd
          have := a8 d hd
          exact ⟨this.2.1, this.2.2.2.1, this.2.2.2.2⟩
  · simp only [createColorTextureTarget, hp] at h
    cases h
/-- What a completed `createDepthTextureTarget` has done. -/
theorem createDepthTextureTarget_ok (status : List GLCall → Nat) (w w2 : World)
    (h : createDepthTextureTarget status w = .ok w2) :
    positiveViewport w = true ∧
    w2.self.viewport = w.self.viewport ∧ w2.self.type = w.self.type ∧
    w2.self.framebuffer = w.ctx.names + 1 ∧
    w2.self.colorbuffer = w.self.colorbuffer ∧
    w2.ctx.driver = w.ctx.driver ∧
    (∃ rest, w2.ctx.calls = w.ctx.calls ++ rest) ∧
    (w.ctx.driver = none → w2.self.texture = w.self.texture ∧
      w2.self.depthStencilbuffer = w.self.depthStencilbuffer) ∧
    (∀ d, w.ctx.driver = some d →
      textureBacked w.self.type = true ∧
      (∃ sub, w2.self.texture = some { id := w.ctx.objects + 1, substrate := some sub }) ∧
      (w2.self.depthStencilbuffer ≠ 0 ↔
        (w.self.depthStencilbuffer ≠ 0 ∨ w.self.type = .ColorTexture))) := by
  by_cases hp : positiveViewport w = true
  · simp only [createDepthTextureTarget, hp, not_true_eq_false, if_false] at h
    split at h
    · cases h
    · rename_i w1 hA
      have hA2 := attachNewTexture_ok status _ _ hA
      simp only [World.gen] at hA2
      obtain ⟨a1, a2, a3, a4, a5, ⟨rest, a6⟩, a7, a8⟩ := hA2
      simp only [World.gen, World.issueAll] at h
      split at h
      · cases h
      · obtain rfl := Except.ok.inj h
        refine ⟨hp, a1, a2, a3, a4, a5,
          ⟨GLCall.glGenFramebuffers (w.ctx.names + 1) :: rest ++ _, by simp [a6]; rfl⟩, ?_, ?_⟩
        · intro hn
          have := a7 hn
          simp [this]
        · intro d hd
          have := a8 d hd
          exact ⟨this.2.1, this.2.2.2.1, this.2.2.2.2⟩
  · simp only [createDepthTextureTarget, hp] at h
    cases h

/-- What a completed `attachTexture` has done to the object. -/
theorem attachTexture_ok (texture : Option VROTexture) (w w2 : World)
    (h : attachTexture texture w = .ok w2) :
    w2.self = { w.self with texture := texture } ∧ textureBacked w.self.type = true := by
  unfold attachTexture at h
  simp only [] at h
  split at h
  · cases h
  · cases ht : w.self.type <;>
      simp [ht, getTextureAttachmentType, World.issue] at h <;>
      (subst h; simp [textureBacked, ht])

/-- What a completed `clearTexture` has done to the object. -/
theorem clearTexture_ok (w w2 : World) (h : clearTexture w = .ok w2) :
    w2.self = { w.self with texture := none } ∧ textureBacked w.self.type = true := by
  unfold clearTexture at h
  cases ht : w.self.type <;>
    simp [ht, getTextureAttachmentType, World.issueAll] at h <;>
    (subst h; simp [textureBacked, ht])

/-- A completed `setTextureImageIndex` leaves the object as it was. -/
theorem setTextureImageIndex_ok (index : Int) (w w2 : World)
    (h : setTextureImageIndex index w = .ok w2) :
    w2.self = w.self ∧ w.self.type = .DepthTextureArray := by
  unfold setTextureImageIndex at h
  split at h
  · cases h
  · cases ht : w.self.type <;>
      simp [ht, getTextureAttachmentType, World.issueAll] at h
    subst h
    simp

/-- The clear operations leave the object as it was. -/
theorem clear_ops_self (w : World) (bits : Int) :
    (clearStencil bits w).self = w.self ∧ (clearDepth w).self = w.self ∧
    (clearColor w).self = w.self ∧ (clearDepthAndColor w).self = w.self := by
  cases hd : w.ctx.driver <;>
    simp [clearStencil, clearDepth, clearColor, clearDepthAndColor, hd, World.issue,
      World.issueAll, driverSetDepthWritingEnabled, driverSetColorWritingEnabled]

/-- Binding and the stencil operations leave the object as it was. -/
theorem stencil_ops_self (w : World) (face : VROFace) (bits : Int) (p : Bool) :
    (bind w).self = w.self ∧
    (enablePortalStencilWriting face w).self = w.self ∧
    (enablePortalStencilRemoval face w).self = w.self ∧
    (disablePortalStencilWriting face w).self = w.self ∧
    (setStencilPassBits face bits p w).self = w.self := by
  cases p <;>
    simp [bind, enablePortalStencilWriting, enablePortalStencilRemoval,
      disablePortalStencilWriting, setStencilPassBits, World.issue, World.issueAll]

/-- The kind-specific creation, as both `setViewport` and `restoreFramebuffers` dispatch it:
when it completes the stored viewport is positive and unchanged. -/
theorem restoreFramebuffers_ok (status : List GLCall → Nat) (w w2 : World)
    (h : restoreFramebuffers status w = .ok w2) :
    positiveViewport w = true ∧ w2.self.viewport = w.self.viewport := by
  unfold restoreFramebuffers at h
  split at h
  · have := createColorDepthRenderbuffers_ok status _ _ h; exact ⟨this.1, this.2.1⟩
  · have := createColorTextureTarget_ok status _ _ h; exact ⟨this.1, this.2.1⟩
  · have := createDepthTextureTarget_ok status _ _ h; exact ⟨this.1, this.2.1⟩
  · have := createDepthTextureTarget_ok status _ _ h; exact ⟨this.1, this.2.1⟩

/-- The method `setViewport` dispatches exactly as `restoreFramebuffers` does. -/
theorem setViewport_eq (status : List GLCall → Nat) (v : VROViewport) (w : World) :
    setViewport status v w =
      if toFloat w.self.viewport.width ≠ toFloat v.width ∨
         toFloat w.self.viewport.height ≠ toFloat v.height then
        restoreFramebuffers status
          (discardFramebuffers { self := { w.self with viewport := v }, ctx := w.ctx })
      else .ok { self := { w.self with viewport := v }, ctx := w.ctx } := by
  unfold setViewport restoreFramebuffers
  rfl

/-- One public operation keeps the property that handles are present only with a positive
stored viewport. -/
theorem run_preserves (status : List GLCall → Nat) (op : Op) (w w2 : World)
    (hI : (w.self.framebuffer ≠ 0 ∨ w.self.colorbuffer ≠ 0 ∨ w.self.depthStencilbuffer ≠ 0) →
      0 < w.self.viewport.width ∧ 0 < w.self.viewport.height)
    (h : run status op w = .ok w2) :
    (w2.self.framebuffer ≠ 0 ∨ w2.self.colorbuffer ≠ 0 ∨ w2.self.depthStencilbuffer ≠ 0) →
      0 < w2.self.viewport.width ∧ 0 < w2.self.viewport.height := by
  have same : w2.self.framebuffer = w.self.framebuffer → w2.self.colorbuffer = w.self.colorbuffer →
      w2.self.depthStencilbuffer = w.self.depthStencilbuffer →
      w2.self.viewport = w.self.viewport →
      (w2.self.framebuffer ≠ 0 ∨ w2.self.colorbuffer ≠ 0 ∨ w2.self.depthStencilbuffer ≠ 0) →
      0 < w2.self.viewport.width ∧ 0 < w2.self.viewport.height := by
    intro e1 e2 e3 e4
    rw [e1, e2, e3, e4]; exact hI
  have sameSelf : w2.self = w.self →
      (w2.self.framebuffer ≠ 0 ∨ w2.self.colorbuffer ≠ 0 ∨ w2.self.depthStencilbuffer ≠ 0) →
      0 < w2.self.viewport.width ∧ 0 < w2.self.viewport.height := by
    intro e; rw [e]; exact hI
  cases op <;> simp only [run] at h
  case setViewport v =>
    rw [setViewport_eq] at h
    split at h
    · have := restoreFramebuffers_ok status _ _ h
      intro _
      rw [this.2]
      exact (positiveViewport_iff _).1 this.1
    · obtain rfl := Except.ok.inj h
      rename_i hs
      simp only [ne_eq, not_or, not_not] at hs
      intro hh
      have hp := hI hh
      have h1 := (toFloat_pos_iff w.self.viewport.width).2 hp.1
      have h2 := (toFloat_pos_iff w.self.viewport.height).2 hp.2
      rw [hs.1] at h1
      rw [hs.2] at h2
      exact ⟨(toFloat_pos_iff _).1 h1, (toFloat_pos_iff _).1 h2⟩
  case restoreFramebuffers =>
    have := restoreFramebuffers_ok status _ _ h
    intro _
    rw [this.2]
    exact (positiveViewport_iff _).1 this.1
  case discardFramebuffers =>
    obtain rfl := Except.ok.inj h
    simp [discardFramebuffers_eq]
  case attachNewTexture =>
    have hA := attachNewTexture_ok status _ _ h
    cases hd : w.ctx.driver with
    | none => exact sameSelf (by rw [hA.2.2.2.2.2.2.1 hd])
    | some d =>
      intro _
      rw [hA.1]
      exact (positiveViewport_iff _).1 (hA.2.2.2.2.2.2.2 d hd).1
  case attachTexture t =>
    have := (attachTexture_ok t w w2 h).1
    exact same (by rw [this]) (by rw [this]) (by rw [this]) (by rw [this])
  case clearTexture =>
    have := (clearTexture_ok w w2 h).1
    exact same (by rw [this]) (by rw [this]) (by rw [this]) (by rw [this])
  case setTextureImageIndex i =>
    exact sameSelf (setTextureImageIndex_ok i w w2 h).1
  case bind =>
    obtain rfl := Except.ok.inj h
    exact sameSelf (stencil_ops_self w .Front 0 true).1
  case clearStencil bits =>
    obtain rfl := Except.ok.inj h
    exact sameSelf (clear_ops_self w bits).1
  case clearDepth =>
    obtain rfl := Except.ok.inj h
    exact sameSelf (clear_ops_self w 0).2.1
  case clearColor =>
    obtain rfl := Except.ok.inj h
    exact sameSelf (clear_ops_self w 0).2.2.1
  case clearDepthAndColor =>
    obtain rfl := Except.ok.inj h
    exact sameSelf (clear_ops_self w 0).2.2.2
  case enablePortalStencilWriting f =>
    obtain rfl := Except.ok.inj h
    exact sameSelf (stencil_ops_self w f 0 true).2.1
  case enablePortalStencilRemoval f =>
    obtain rfl := Except.ok.inj h
    exact sameSelf (stencil_ops_self w f 0 true).2.2.1
  case disablePortalStencilWriting f =>
    obtain rfl := Except.ok.inj h
    exact sameSelf (stencil_ops_self w f 0 true).2.2.2.1
  case setStencilPassBits f bits p =>
    obtain rfl := Except.ok.inj h
    exact sameSelf (stencil_ops_self w f bits p).2.2.2.2

/-- Masking with 0xFF keeps an 8-bit value. -/
theorem and_255 (n : Nat) (h : n ≤ 255) : n &&& 255 = n := by
  have := @Nat.and_pow_two_sub_one_of_lt_two_pow 8 n (by omega)
  simpa using this

/-- The stencil comparison after one more call. -/
theorem stencilFuncAfter_append (calls : List GLCall) (c : GLCall) (back : Bool) :
    stencilFuncAfter (calls ++ [c]) back = stencilFuncStep back (stencilFuncAfter calls back) c := by
  simp [stencilFuncAfter, List.foldl_append]

/-- Conversion to float keeps the sign: negative exactly when the int is. -/
theorem toFloat_neg_iff (n : Int) : toFloat n < 0 ↔ n < 0 := by
  unfold toFloat
  split
  · rename_i h
    have hp : 0 < n.natAbs := by omega
    have := toFloatNat_pos _ hp
    constructor
    · intro _; exact h
    · intro _; omega
  · rename_i h
    have : (0:Int) ≤ ((toFloatNat n.natAbs : Nat) : Int) := Int.ofNat_nonneg _
    constructor <;> intro h2 <;> omega

/-- Only 0 converts to the float 0. -/
theorem toFloat_eq_zero_iff (n : Int) : toFloat n = 0 ↔ n = 0 := by
  have h1 := toFloat_pos_iff n
  have h2 := toFloat_neg_iff n
  constructor <;> intro h <;> omega

/-- One public operation keeps the stored viewport either of size 0 x 0 or positive in
both dimensions. -/
theorem run_preserves_viewport_shape (status : List GLCall → Nat) (op : Op) (w w2 : World)
    (hJ : (w.self.viewport.width = 0 ∧ w.self.viewport.height = 0) ∨
      (0 < w.self.viewport.width ∧ 0 < w.self.viewport.height))
    (h : run status op w = .ok w2) :
    (w2.self.viewport.width = 0 ∧ w2.self.viewport.height = 0) ∨
      (0 < w2.self.viewport.width ∧ 0 < w2.self.viewport.height) := by
  have sameSelf : w2.self = w.self →
      ((w2.self.viewport.width = 0 ∧ w2.self.viewport.height = 0) ∨
      (0 < w2.self.viewport.width ∧ 0 < w2.self.viewport.height)) := by
    intro e; rw [e]; exact hJ
  have sameVp : w2.self.viewport = w.self.viewport →
      ((w2.self.viewport.width = 0 ∧ w2.self.viewport.height = 0) ∨
      (0 < w2.self.viewport.width ∧ 0 < w2.self.viewport.height)) := by
    intro e; rw [e]; exact hJ
  cases op <;> simp only [run] at h
  case setViewport v =>
    rw [setViewport_eq] at h
    split at h
    · have := restoreFramebuffers_ok status _ _ h
      right
      rw [this.2]
      exact (positiveViewport_iff _).1 this.1
    · obtain rfl := Except.ok.inj h
      rename_i hs
      simp only [ne_eq, not_or, not_not] at hs
      rcases hJ with ⟨z1, z2⟩ | ⟨p1, p2⟩
      · left
        rw [z1, toFloat_zero] at hs
        rw [z2, toFloat_zero] at hs
        exact ⟨(toFloat_eq_zero_iff _).1 hs.1.symm, (toFloat_eq_zero_iff _).1 hs.2.symm⟩
      · right
        have h1 := (toFloat_pos_iff w.self.viewport.width).2 p1
        have h2 := (toFloat_pos_iff w.self.viewport.height).2 p2
        rw [hs.1] at h1
        rw [hs.2] at h2
        exact ⟨(toFloat_pos_iff _).1 h1, (toFloat_pos_iff _).1 h2⟩
  case restoreFramebuffers =>
    have := restoreFramebuffers_ok status _ _ h
    right
    rw [this.2]
    exact (positiveViewport_iff _).1 this.1
  case discardFramebuffers =>
    obtain rfl := Except.ok.inj h
    exact sameVp (by simp [discardFramebuffers_eq])
  case attachNewTexture =>
    exact sameVp (attachNewTexture_ok status _ _ h).1
  case attachTexture t =>
    have := (attachTexture_ok t w w2 h).1
    exact sameVp (by rw [this])
  case clearTexture =>
    have := (clearTexture_ok w w2 h).1
    exact sameVp (by rw [this])
  case setTextureImageIndex i =>
    exact sameSelf (setTextureImageIndex_ok i w w2 h).1
  case bind =>
    obtain rfl := Except.ok.inj h
    exact sameSelf (stencil_ops_self w .Front 0 true).1
  case clearStencil bits =>
    obtain rfl := Except.ok.inj h
    exact sameSelf (clear_ops_self w bits).1
  case clearDepth =>
    obtain rfl := Except.ok.inj h
    exact sameSelf (clear_ops_self w 0).2.1
  case clearColor =>
    obtain rfl := Except.ok.inj h
    exact sameSelf (clear_ops_self w 0).2.2.1
  case clearDepthAndColor =>
    obtain rfl := Except.ok.inj h
    exact sameSelf (clear_ops_self w 0).2.2.2
  case enablePortalStencilWriting f =>
    obtain rfl := Except.ok.inj h
    exact sameSelf (stencil_ops_self w f 0 true).2.1
  case enablePortalStencilRemoval f =>
    obtain rfl := Except.ok.inj h
    exact sameSelf (stencil_ops_self w f 0 true).2.2.1
  case disablePortalStencilWriting f =>
    obtain rfl := Except.ok.inj h
    exact sameSelf (stencil_ops_self w f 0 true).2.2.2.1
  case setStencilPassBits f bits p =>
    obtain rfl := Except.ok.inj h
    exact sameSelf (stencil_ops_self w f bits p).2.2.2.2

/-- In every reachable world the stored viewport is of size 0 x 0 or positive in both
dimensions. -/
theorem reachable_viewport_shape (status : List GLCall → Nat) (w : World)
    (hr : Reachable status w) :
    (w.self.viewport.width = 0 ∧ w.self.viewport.height = 0) ∨
      (0 < w.self.viewport.width ∧ 0 < w.self.viewport.height) := by
  induction hr with
  | construct type numImages clearColor ctx => simp [construct, zeroViewport]
  | step op w w2 _ hrun ih => exact run_preserves_viewport_shape status op w w2 ih hrun
  | surroundings w ctx _ ih => exact ih

/-- In a reachable world, a viewport that differs in size and is not positive differs as
floats as well. -/
theorem reachable_size_change_seen (status : List GLCall → Nat) (w : World) (v : VROViewport)
    (hr : Reachable status w)
    (hs : w.self.viewport.width ≠ v.width ∨ w.self.viewport.height ≠ v.height)
    (hv : v.width ≤ 0 ∨ v.height ≤ 0) :
    toFloat w.self.viewport.width ≠ toFloat v.width ∨
      toFloat w.self.viewport.height ≠ toFloat v.height := by
  rcases reachable_viewport_shape status w hr with ⟨z1, z2⟩ | ⟨p1, p2⟩
  · rw [z1, z2, toFloat_zero]
    rw [z1, z2] at hs
    rcases hs with hs | hs
    · left
      intro hc
      exact hs ((toFloat_eq_zero_iff _).1 hc.symm).symm
    · right
      intro hc
      exact hs ((toFloat_eq_zero_iff _).1 hc.symm).symm
  · have h1 := (toFloat_pos_iff w.self.viewport.width).2 p1
    have h2 := (toFloat_pos_iff w.self.viewport.height).2 p2
    rcases hv with hv | hv
    · left
      intro hc
      rw [hc] at h1
      have := (toFloat_pos_iff _).1 h1
      omega
    · right
      intro hc
      rw [hc] at h2
      have := (toFloat_pos_iff _).1 h2
      omega

/-- C1: for every render target state (any kind, any handles, any context) and every
viewport `v` whose width and height equal the stored ones, `setViewport v` does not abort
and returns the same world with `v` stored as the viewport: the three handles, the
texture reference and every other field are those of before, and the context is
unchanged, so no call was issued (nothing deleted, nothing allocated) and no name or
object was handed out.  Sizes of zero are included. -/
theorem setViewport_same_size_only_stores (status : List GLCall → Nat) (w : World)
    (v : VROViewport) (hw : v.width = w.self.viewport.width)
    (hh : v.height = w.self.viewport.height) :
    setViewport status v w = .ok { self := { w.self with viewport := v }, ctx := w.ctx } := by
  simp [setViewport, hw, hh]

/-- C1 at concrete inputs: a position-only change on a created 512 x 512 target. -/
theorem setViewport_same_size_only_stores_witness :
    ((⟨10, 10, 512, 512⟩ : VROViewport).width = createdColorTarget.self.viewport.width ∧
     (⟨10, 10, 512, 512⟩ : VROViewport).height = createdColorTarget.self.viewport.height) ∧
    setViewport alwaysComplete ⟨10, 10, 512, 512⟩ createdColorTarget =
      .ok { self := { createdColorTarget.self with viewport := ⟨10, 10, 512, 512⟩ },
            ctx := createdColorTarget.ctx } :=
  ⟨⟨rfl, rfl⟩, setViewport_same_size_only_stores alwaysComplete createdColorTarget
    ⟨10, 10, 512, 512⟩ rfl rfl⟩

/-! ## C2: a viewport of another size recreates the target -/

/-- C3: for every kind and every viewport `v` with positive width and height, with the
driver alive and the backend reporting completeness at every check: `setViewport v` on a
new target completes, and `discardFramebuffers` followed by `restoreFramebuffers`
completes as well; both states store `v`; the framebuffer handle is present in both; the
depth/stencil handle and the colour handle are present after the restore exactly when they
were present after the first creation; and in both states a texture is attached exactly
when the kind is texture-backed. -/
theorem discard_restore_round_trip (status : List GLCall → Nat) (type : VRORenderTargetType)
    (numImages : Int) (clearColor : VROVector4f) (ctx : Context) (d : VRODriver)
    (v : VROViewport)
    (hw : 0 < v.width) (hh : 0 < v.height) (hd : ctx.driver = some d)
    (hs : ∀ calls, status calls = GL_FRAMEBUFFER_COMPLETE) :
    ∃ w1 w3, setViewport status v (construct type numImages clearColor ctx) = .ok w1 ∧
      restoreFramebuffers status (discardFramebuffers w1) = .ok w3 ∧
      w1.self.viewport = v ∧ w3.self.viewport = v ∧
      w1.self.framebuffer ≠ 0 ∧ w3.self.framebuffer ≠ 0 ∧
      (w3.self.depthStencilbuffer ≠ 0 ↔ w1.self.depthStencilbuffer ≠ 0) ∧
      (w3.self.colorbuffer ≠ 0 ↔ w1.self.colorbuffer ≠ 0) ∧
      (hasTextureAttached w1 = true ↔ textureBacked type = true) ∧
      (hasTextureAttached w3 = true ↔ textureBacked type = true) := by
  have hfw : toFloat v.width ≠ 0 := by
    have := (toFloat_pos_iff v.width).2 hw; omega
  cases type <;>
  simp [setViewport, construct, zeroViewport, toFloat_zero, Ne.symm hfw, discardFramebuffers,
      restoreFramebuffers, createColorDepthRenderbuffers, createColorTextureTarget,
      createDepthTextureTarget, attachNewTexture, positiveViewport, hw, hh, not_le.mpr hh, hd, hs,
      World.gen, World.issue, World.issueAll, storeNewTexture, textureBacked, hasTextureAttached]

/-- C3 at concrete inputs: a depth-texture target at 256 x 256. -/
theorem discard_restore_round_trip_witness :
    ((0 : Int) < (⟨0, 0, 256, 256⟩ : VROViewport).width ∧
      (0 : Int) < (⟨0, 0, 256, 256⟩ : VROViewport).height ∧
      liveContext.driver = some { depthWritingEnabled := false, colorWritingEnabled := false } ∧
      ∀ calls, alwaysComplete calls = GL_FRAMEBUFFER_COMPLETE) ∧
    ∃ w1 w3, setViewport alwaysComplete ⟨0, 0, 256, 256⟩
          (construct .DepthTexture 1 black liveContext) = .ok w1 ∧
      restoreFramebuffers alwaysComplete (discardFramebuffers w1) = .ok w3 ∧
      w1.self.viewport = ⟨0, 0, 256, 256⟩ ∧ w3.self.viewport = ⟨0, 0, 256, 256⟩ ∧
      w1.self.framebuffer ≠ 0 ∧ w3.self.framebuffer ≠ 0 ∧
      (w3.self.depthStencilbuffer ≠ 0 ↔ w1.self.depthStencilbuffer ≠ 0) ∧
      (w3.self.colorbuffer ≠ 0 ↔ w1.self.colorbuffer ≠ 0) ∧
      (hasTextureAttached w1 = true ↔ textureBacked .DepthTexture = true) ∧
      (hasTextureAttached w3 = true ↔ textureBacked .DepthTexture = true) :=
  ⟨⟨by decide, by decide, rfl, fun _ => rfl⟩,
   discard_restore_round_trip alwaysComplete .DepthTexture 1 black liveContext _ ⟨0, 0, 256, 256⟩
     (by decide) (by decide) rfl (fun _ => rfl)⟩

/-! ## C4: discarding -/

/-- C4: for every state, `discardFramebuffers` (a total function: its body has no abort
path, and as a public operation it always returns `.ok`) yields a state whose three
handles are 0 and whose texture reference is null, with viewport, kind, layer count and
clear colour those of before; the calls it adds are exactly the delete calls for the
handles that were present; and applied to an already discarded state it returns that
state unchanged, issuing no call. -/
theorem discardFramebuffers_releases_and_is_idempotent (status : List GLCall → Nat)
    (w : World) :
    run status .discardFramebuffers w = .ok (discardFramebuffers w) ∧
    (discardFramebuffers w).self.framebuffer = 0 ∧
    (discardFramebuffers w).self.colorbuffer = 0 ∧
    (discardFramebuffers w).self.depthStencilbuffer = 0 ∧
    (discardFramebuffers w).self.texture = none ∧
    (discardFramebuffers w).self.viewport = w.self.viewport ∧
    (discardFramebuffers w).self.type = w.self.type ∧
    (discardFramebuffers w).self.numImages = w.self.numImages ∧
    (discardFramebuffers w).self.clearColor = w.self.clearColor ∧
    (discardFramebuffers w).ctx.calls = w.ctx.calls ++ teardownCalls w.self ∧
    discardFramebuffers (discardFramebuffers w) = discardFramebuffers w ∧
    (discardFramebuffers (discardFramebuffers w)).ctx.calls = (discardFramebuffers w).ctx.calls := by
  have h2 : discardFramebuffers (discardFramebuffers w) = discardFramebuffers w := by
    rw [discardFramebuffers_eq (discardFramebuffers w), discardFramebuffers_eq w]
    simp [teardownCalls]
  refine ⟨rfl, ?_, ?_, ?_, ?_, ?_, ?_, ?_, ?_, ?_, h2, by rw [h2]⟩ <;>
    simp [discardFramebuffers_eq]

/-! ## C5: no handle without a positive viewport -/

/-- C5: (1) in every world reachable from construction by public operations that did not
abort, if the framebuffer, colour or depth/stencil handle is present then the stored
viewport has positive width and height; (2) `restoreFramebuffers` on a state whose stored
viewport is not positive aborts, for every kind, in the very state it was called in, with
nothing issued; (3) a `setViewport v` that finds the size changed, with `v.width <= 0` or
`v.height <= 0`, aborts for every kind, and at the abort only the delete calls of the
teardown have been issued: no name and no object has been handed out and all three
handles are 0; (4) in a reachable world the same holds for every `v` that differs from
the stored viewport in width or in height as integers. -/
theorem no_handle_without_positive_viewport (status : List GLCall → Nat) :
    (∀ w, Reachable status w →
      (w.self.framebuffer ≠ 0 ∨ w.self.colorbuffer ≠ 0 ∨ w.self.depthStencilbuffer ≠ 0) →
      0 < w.self.viewport.width ∧ 0 < w.self.viewport.height) ∧
    (∀ w : World, ¬ (0 < w.self.viewport.width ∧ 0 < w.self.viewport.height) →
      ∃ a, restoreFramebuffers status w = .error a ∧ a.world = w) ∧
    (∀ (w : World) (v : VROViewport),
      (toFloat w.self.viewport.width ≠ toFloat v.width ∨
        toFloat w.self.viewport.height ≠ toFloat v.height) →
      (v.width ≤ 0 ∨ v.height ≤ 0) →
      ∃ a, setViewport status v w = .error a ∧
        a.world.ctx.names = w.ctx.names ∧ a.world.ctx.objects = w.ctx.objects ∧
        a.world.ctx.calls = w.ctx.calls ++ teardownCalls w.self ∧
        a.world.self.framebuffer = 0 ∧ a.world.self.colorbuffer = 0 ∧
        a.world.self.depthStencilbuffer = 0) ∧
    (∀ (w : World) (v : VROViewport), Reachable status w →
      (w.self.viewport.width ≠ v.width ∨ w.self.viewport.height ≠ v.height) →
      (v.width ≤ 0 ∨ v.height ≤ 0) →
      ∃ a, setViewport status v w = .error a ∧
        a.world.ctx.names = w.ctx.names ∧ a.world.ctx.objects = w.ctx.objects ∧
        a.world.ctx.calls = w.ctx.calls ++ teardownCalls w.self ∧
        a.world.self.framebuffer = 0 ∧ a.world.self.colorbuffer = 0 ∧
        a.world.self.depthStencilbuffer = 0) := by
  have hrestore : ∀ w : World, ¬ (0 < w.self.viewport.width ∧ 0 < w.self.viewport.height) →
      restoreFramebuffers status w =
        .error ⟨"Must invoke setViewport before using a render target", w⟩ := by
    intro w hn
    have hp : ¬ positiveViewport w = true := fun hc => hn ((positiveViewport_iff w).1 hc)
    cases ht : w.self.type <;>
      simp [restoreFramebuffers, ht, createColorDepthRenderbuffers, createColorTextureTarget,
        createDepthTextureTarget, hp]
  have hset : ∀ (w : World) (v : VROViewport),
      (toFloat w.self.viewport.width ≠ toFloat v.width ∨
        toFloat w.self.viewport.height ≠ toFloat v.height) →
      (v.width ≤ 0 ∨ v.height ≤ 0) →
      ∃ a, setViewport status v w = .error a ∧
        a.world.ctx.names = w.ctx.names ∧ a.world.ctx.objects = w.ctx.objects ∧
        a.world.ctx.calls = w.ctx.calls ++ teardownCalls w.self ∧
        a.world.self.framebuffer = 0 ∧ a.world.self.colorbuffer = 0 ∧
        a.world.self.depthStencilbuffer = 0 := by
    intro w v hs hv
    rw [setViewport_eq, if_pos hs, hrestore]
    · exact ⟨_, rfl, by simp [discardFramebuffers_eq, teardownCalls]⟩
    · simp only [discardFramebuffers_eq]
      omega
  refine ⟨?_, ?_, hset, ?_⟩
  · intro w hr
    induction hr with
    | construct type numImages clearColor ctx => simp [construct]
    | step op w w2 _ hrun ih => exact run_preserves status op w w2 ih hrun
    | surroundings w ctx _ ih => exact ih
  · intro w hn
    exact ⟨_, hrestore w hn, rfl⟩
  · intro w v hr hs hv
    exact hset w v (reachable_size_change_seen status w v hr hs hv) hv

/-- C5 at concrete inputs: the created colour target is reachable and holds a
framebuffer with a 512 x 512 viewport; restoring a new target aborts on the spot; so does
giving a new target a viewport of height 0, or the created target one of height -1. -/
theorem no_handle_without_positive_viewport_witness :
    (Reachable alwaysComplete createdColorTarget ∧
      (createdColorTarget.self.framebuffer ≠ 0 ∨ createdColorTarget.self.colorbuffer ≠ 0 ∨
        createdColorTarget.self.depthStencilbuffer ≠ 0) ∧
      0 < createdColorTarget.self.viewport.width ∧ 0 < createdColorTarget.self.viewport.height) ∧
    (∃ a, restoreFramebuffers alwaysComplete (construct .Renderbuffer 1 black liveContext)
        = .error a ∧ a.world = construct .Renderbuffer 1 black liveContext) ∧
    (∃ a, setViewport alwaysComplete ⟨0, 0, 5, 0⟩ (construct .Renderbuffer 1 black liveContext)
        = .error a ∧
      a.world.ctx.names = liveContext.names ∧ a.world.ctx.objects = liveContext.objects ∧
      a.world.ctx.calls = liveContext.calls ++
        teardownCalls (construct .Renderbuffer 1 black liveContext).self ∧
      a.world.self.framebuffer = 0 ∧ a.world.self.colorbuffer = 0 ∧
      a.world.self.depthStencilbuffer = 0) ∧
    (∃ a, setViewport alwaysComplete ⟨0, 0, 512, -1⟩ createdColorTarget = .error a ∧
      a.world.ctx.names = createdColorTarget.ctx.names ∧
      a.world.ctx.objects = createdColorTarget.ctx.objects ∧
      a.world.ctx.calls = createdColorTarget.ctx.calls ++ teardownCalls createdColorTarget.self ∧
      a.world.self.framebuffer = 0 ∧ a.world.self.colorbuffer = 0 ∧
      a.world.self.depthStencilbuffer = 0) :=
  have hr : Reachable alwaysComplete createdColorTarget :=
    Reachable.step (.setViewport ⟨0, 0, 512, 512⟩) _ _
      (Reachable.construct .ColorTexture 1 black liveContext) rfl
  have hh : createdColorTarget.self.framebuffer ≠ 0 ∨ createdColorTarget.self.colorbuffer ≠ 0 ∨
      createdColorTarget.self.depthStencilbuffer ≠ 0 := Or.inl (by decide)
  ⟨⟨hr, hh, (no_handle_without_positive_viewport alwaysComplete).1 _ hr hh⟩,
   (no_handle_without_positive_viewport alwaysComplete).2.1 _ (by decide),
   (no_handle_without_positive_viewport alwaysComplete).2.2.1 _ ⟨0, 0, 5, 0⟩
     (Or.inl (by rw [toFloat_of_small, toFloat_of_small] <;> decide)) (Or.inr (by decide)),
   (no_handle_without_positive_viewport alwaysComplete).2.2.2 _ ⟨0, 0, 512, -1⟩ hr
     (Or.inr (by decide)) (Or.inr (by decide))⟩

/-! ## C6: bind and clear on a new target -/

/-- C6 fails as stated: on a new renderbuffer target (zero-size viewport, no handle) with a
live driver, `bind` is not rejected but issues the bind of framebuffer 0 and a viewport
and a scissor of size zero, and `clearColor` is not rejected but enables colour writing and
issues the clear. -/
theorem bind_and_clear_on_new_target_are_not_rejected :
    run alwaysComplete .bind (construct .Renderbuffer 1 black liveContext) =
      .ok { self := (construct .Renderbuffer 1 black liveContext).self,
            ctx := { liveContext with
              calls := [ .glBindFramebuffer GL_FRAMEBUFFER 0, .glViewport 0 0 0 0,
                         .glScissor 0 0 0 0 ] } } ∧
    run alwaysComplete .clearColor (construct .Renderbuffer 1 black liveContext) =
      .ok { self := (construct .Renderbuffer 1 black liveContext).self,
            ctx := { liveContext with
              calls := [ .setColorWritingEnabled true, .glClearColor 0 0 0 0x3F800000,
                         .glClear GL_COLOR_BUFFER_BIT ],
              driver := some { depthWritingEnabled := false, colorWritingEnabled := true } } } :=
  ⟨rfl, rfl⟩

/-- C6 as amended: for every kind, on a newly constructed target, neither `bind` nor any
clear operation is rejected.  `bind` completes after issuing the bind of framebuffer 0
and the viewport and scissor calls with the stored zero-size rectangle.  Each of
`clearColor`, `clearDepth`, `clearStencil bits` and `clearDepthAndColor` completes and
leaves the object as it was; with the driver gone it changes nothing at all, and with the
driver alive the calls it adds end with the clear command. -/
theorem bind_and_clear_on_new_target (status : List GLCall → Nat) (type : VRORenderTargetType)
    (numImages : Int) (cc : VROVector4f) (ctx : Context) (bits : Int) :
    run status .bind (construct type numImages cc ctx) =
      .ok ((construct type numImages cc ctx).issueAll
        [ .glBindFramebuffer GL_FRAMEBUFFER 0, .glViewport 0 0 0 0, .glScissor 0 0 0 0 ]) ∧
    (∀ op ∈ [Op.clearColor, Op.clearDepth, Op.clearStencil bits, Op.clearDepthAndColor],
      ∃ w2, run status op (construct type numImages cc ctx) = .ok w2 ∧
        w2.self = (construct type numImages cc ctx).self ∧
        (ctx.driver = none → w2 = construct type numImages cc ctx) ∧
        (ctx.driver ≠ none →
          ∃ before mask, w2.ctx.calls = ctx.calls ++ before ++ [GLCall.glClear mask])) := by
  refine ⟨by simp [run, bind, construct, zeroViewport], ?_⟩
  intro op hop
  simp only [List.mem_cons, List.mem_singleton, List.not_mem_nil, or_false] at hop
  cases hd : ctx.driver with
  | none =>
    rcases hop with rfl | rfl | rfl | rfl <;>
      simp [run, clearColor, clearDepth, clearStencil, clearDepthAndColor, construct, hd]
  | some d =>
    rcases hop with rfl | rfl | rfl | rfl
    · refine ⟨_, rfl, (clear_ops_self _ 0).2.2.1, by simp [construct, hd], fun _ => ?_⟩
      exact ⟨[.setColorWritingEnabled true, .glClearColor cc.x cc.y cc.z cc.w], GL_COLOR_BUFFER_BIT,
        by simp [clearColor, construct, hd, World.issueAll, driverSetColorWritingEnabled]⟩
    · refine ⟨_, rfl, (clear_ops_self _ 0).2.1, by simp [construct, hd], fun _ => ?_⟩
      exact ⟨[.setDepthWritingEnabled true], GL_DEPTH_BUFFER_BIT,
        by simp [clearDepth, construct, hd, World.issue, driverSetDepthWritingEnabled]⟩
    · refine ⟨_, rfl, (clear_ops_self _ bits).1, by simp [construct, hd], fun _ => ?_⟩
      exact ⟨[.glStencilMask 0xFF, .glClearStencil bits], GL_STENCIL_BUFFER_BIT,
        by simp [clearStencil, construct, hd, World.issueAll]⟩
    · refine ⟨_, rfl, (clear_ops_self _ 0).2.2.2, by simp [construct, hd], fun _ => ?_⟩
      exact ⟨[.setDepthWritingEnabled true, .setColorWritingEnabled true,
          .glClearColor cc.x cc.y cc.z cc.w], GL_COLOR_BUFFER_BIT ||| GL_DEPTH_BUFFER_BIT,
        by simp [clearDepthAndColor, construct, hd, World.issueAll, driverSetDepthWritingEnabled,
          driverSetColorWritingEnabled]⟩

/-- C6 amended, at concrete inputs: a new colour-texture target with a live driver. -/
theorem bind_and_clear_on_new_target_witness :
    run alwaysComplete .bind (construct .ColorTexture 1 black liveContext) =
      .ok ((construct .ColorTexture 1 black liveContext).issueAll
        [ .glBindFramebuffer GL_FRAMEBUFFER 0, .glViewport 0 0 0 0, .glScissor 0 0 0 0 ]) ∧
    (Op.clearDepth ∈ [Op.clearColor, Op.clearDepth, Op.clearStencil 0, Op.clearDepthAndColor] ∧
      ∃ w2, run alwaysComplete .clearDepth (construct .ColorTexture 1 black liveContext) = .ok w2 ∧
        w2.self = (construct .ColorTexture 1 black liveContext).self ∧
        (liveContext.driver = none → w2 = construct .ColorTexture 1 black liveContext) ∧
        (liveContext.driver ≠ none →
          ∃ before mask, w2.ctx.calls = liveContext.calls ++ before ++ [GLCall.glClear mask])) :=
  ⟨(bind_and_clear_on_new_target alwaysComplete .ColorTexture 1 black liveContext 0).1,
   by decide,
   (bind_and_clear_on_new_target alwaysComplete .ColorTexture 1 black liveContext 0).2
     .clearDepth (by decide)⟩

/-! ## C7: selecting a layer of a depth-texture array -/

/-- C7 fails as stated: a depth-texture-array target with 4 layers, created at 256 x 256
with a live driver.  `setTextureImageIndex 4` does not abort; it binds the framebuffer and
issues the rebind of the depth attachment with layer 4. -/
theorem setTextureImageIndex_beyond_layer_count_is_not_fatal :
    setViewport alwaysComplete ⟨0, 0, 256, 256⟩ (construct .DepthTextureArray 4 black liveContext)
      = .ok createdArrayTarget ∧
    (4 : Int) ≥ createdArrayTarget.self.numImages ∧
    setTextureImageIndex 4 createdArrayTarget =
      .ok (createdArrayTarget.issueAll
        [ .glBindFramebuffer GL_FRAMEBUFFER createdArrayTarget.self.framebuffer,
          .glFramebufferTextureLayer GL_FRAMEBUFFER GL_DEPTH_ATTACHMENT 2 0 4 ]) :=
  ⟨rfl, by decide, rfl⟩

/-- C7 as amended: for every depth-texture-array target that holds its array texture (as
it does after creation) and whose driver is alive, and for every index, below the layer
count or not, `setTextureImageIndex index` does not abort: it leaves the object untouched
(no handle, no texture reallocated) and issues exactly the bind of the framebuffer and the
rebind of the depth attachment to layer `index` of the texture held.  The index is not
compared with the layer count. -/
theorem setTextureImageIndex_rebinds_layer (w : World) (d : VRODriver) (t : VROTexture)
    (sub : VROTextureSubstrateOpenGL) (index : Int)
    (hk : w.self.type = .DepthTextureArray) (hd : w.ctx.driver = some d)
    (ht : w.self.texture = some t) (hsub : t.substrate = some sub) :
    setTextureImageIndex index w =
      .ok { self := w.self,
            ctx := { w.ctx with calls := w.ctx.calls ++
              [ .glBindFramebuffer GL_FRAMEBUFFER w.self.framebuffer,
                .glFramebufferTextureLayer GL_FRAMEBUFFER GL_DEPTH_ATTACHMENT sub.name 0 index ] } } := by
  simp [setTextureImageIndex, getTextureName, getTextureAttachmentType, hk, hd, ht, hsub,
    World.issueAll]

/-- C7 amended, at concrete inputs: layer 3 of the created 4-layer target. -/
theorem setTextureImageIndex_rebinds_layer_witness :
    (createdArrayTarget.self.type = .DepthTextureArray ∧
      createdArrayTarget.ctx.driver =
        some { depthWritingEnabled := false, colorWritingEnabled := false } ∧
      createdArrayTarget.self.texture =
        some { id := 1, substrate := some { target := GL_TEXTURE_2D_ARRAY, name := 2 } } ∧
      (VROTexture.mk 1 (some { target := GL_TEXTURE_2D_ARRAY, name := 2 })).substrate =
        some { target := GL_TEXTURE_2D_ARRAY, name := 2 }) ∧
    setTextureImageIndex 3 createdArrayTarget =
      .ok { self := createdArrayTarget.self,
            ctx := { createdArrayTarget.ctx with calls := createdArrayTarget.ctx.calls ++
              [ .glBindFramebuffer GL_FRAMEBUFFER createdArrayTarget.self.framebuffer,
                .glFramebufferTextureLayer GL_FRAMEBUFFER GL_DEPTH_ATTACHMENT
                  (VROTextureSubstrateOpenGL.mk GL_TEXTURE_2D_ARRAY 2).name 0 3 ] } } :=
  ⟨⟨rfl, rfl, rfl, rfl⟩,
   setTextureImageIndex_rebinds_layer createdArrayTarget _ _ _ 3 rfl rfl rfl rfl⟩

/-! ## C8: the clear operations -/

/-- C8: for each clear operation and every state: with the driver gone the operation
returns the world unchanged (no backend call, no driver call, same object); with the
driver alive the object is unchanged and the calls added are, in this order, the enabling
of the write mask of the buffers cleared (`setColorWritingEnabled true`,
`setDepthWritingEnabled true`, both, or `glStencilMask 0xFF`) and then the clear, and the
driver's flag for that mask is true afterwards whatever it was before. -/
theorem clear_operations_check_driver_and_enable_mask (w : World) (bits : Int) :
    (w.ctx.driver = none →
      clearColor w = w ∧ clearDepth w = w ∧ clearStencil bits w = w ∧ clearDepthAndColor w = w) ∧
    (∀ d, w.ctx.driver = some d →
      (clearColor w =
        { self := w.self,
          ctx := { w.ctx with
            calls := w.ctx.calls ++
              [ .setColorWritingEnabled true,
                .glClearColor w.self.clearColor.x w.self.clearColor.y w.self.clearColor.z
                  w.self.clearColor.w,
                .glClear GL_COLOR_BUFFER_BIT ],
            driver := some { d with colorWritingEnabled := true } } }) ∧
      (clearDepth w =
        { self := w.self,
          ctx := { w.ctx with
            calls := w.ctx.calls ++ [ .setDepthWritingEnabled true, .glClear GL_DEPTH_BUFFER_BIT ],
            driver := some { d with depthWritingEnabled := true } } }) ∧
      (clearStencil bits w =
        { self := w.self,
          ctx := { w.ctx with
            calls := w.ctx.calls ++
              [ .glStencilMask 0xFF, .glClearStencil bits, .glClear GL_STENCIL_BUFFER_BIT ] } }) ∧
      (clearDepthAndColor w =
        { self := w.self,
          ctx := { w.ctx with
            calls := w.ctx.calls ++
              [ .setDepthWritingEnabled true, .setColorWritingEnabled true,
                .glClearColor w.self.clearColor.x w.self.clearColor.y w.self.clearColor.z
                  w.self.clearColor.w,
                .glClear (GL_COLOR_BUFFER_BIT ||| GL_DEPTH_BUFFER_BIT) ],
            driver := some { depthWritingEnabled := true, colorWritingEnabled := true } } })) := by
  constructor
  · intro hd
    simp [clearColor, clearDepth, clearStencil, clearDepthAndColor, hd]
  · intro d hd
    simp [clearColor, clearDepth, clearStencil, clearDepthAndColor, hd, World.issue,
      World.issueAll, driverSetDepthWritingEnabled, driverSetColorWritingEnabled]

/-- C8 at concrete inputs: the created colour target, once with its driver gone and once
with the driver alive and both masks disabled. -/
theorem clear_operations_check_driver_and_enable_mask_witness :
    ((driverGone createdColorTarget).ctx.driver = none ∧
      clearColor (driverGone createdColorTarget) = driverGone createdColorTarget ∧
      clearDepth (driverGone createdColorTarget) = driverGone createdColorTarget ∧
      clearStencil 0 (driverGone createdColorTarget) = driverGone createdColorTarget ∧
      clearDepthAndColor (driverGone createdColorTarget) = driverGone createdColorTarget) ∧
    (createdColorTarget.ctx.driver =
        some { depthWritingEnabled := false, colorWritingEnabled := false } ∧
      clearDepth createdColorTarget =
        { self := createdColorTarget.self,
          ctx := { createdColorTarget.ctx with
            calls := createdColorTarget.ctx.calls ++
              [ .setDepthWritingEnabled true, .glClear GL_DEPTH_BUFFER_BIT ],
            driver := some { depthWritingEnabled := true, colorWritingEnabled := false } } }) :=
  ⟨⟨rfl, (clear_operations_check_driver_and_enable_mask (driverGone createdColorTarget) 0).1 rfl⟩,
   rfl,
   ((clear_operations_check_driver_and_enable_mask createdColorTarget 0).2 _ rfl).2.1⟩

/-! ## C9: attaching a texture after the driver has gone -/

/-- C9, the code at the failing input: the created colour target (texture object 1
attached) after its driver has gone, and another texture (object 7).  `attachTexture`
completes, but it has stored the new reference in place of the old one, bound the
framebuffer and set the colour attachment to texture name 0. -/
theorem attachTexture_after_driver_gone_stores_and_detaches :
    (driverGone createdColorTarget).ctx.driver = none ∧
    getTexture (driverGone createdColorTarget) =
      some { id := 1, substrate := some { target := GL_TEXTURE_2D, name := 2 } } ∧
    attachTexture (some { id := 7, substrate := some { target := GL_TEXTURE_2D, name := 9 } })
        (driverGone createdColorTarget) =
      .ok { self := { createdColorTarget.self with
                texture := some { id := 7, substrate := some { target := GL_TEXTURE_2D, name := 9 } } },
            ctx := { (driverGone createdColorTarget).ctx with
              calls := createdColorTarget.ctx.calls ++
                [ .glBindFramebuffer GL_FRAMEBUFFER 1,
                  .glFramebufferTexture2D GL_FRAMEBUFFER GL_COLOR_ATTACHMENT0 GL_TEXTURE_2D 0 0 ] } } :=
  ⟨rfl, rfl, rfl⟩

/-! ## C10: the stencil test configured by setStencilPassBits -/

/-- C10 fails as stated: after `setStencilPassBits Front 1 true`, a front-facing fragment
over a stored stencil value 0 (which is `<= 1`) fails the test, and one over a stored
value 2 (which is not `<= 1`) passes. -/
theorem setStencilPassBits_test_is_not_stored_le_bits :
    coversSide (toGL .Front) false = true ∧
    fragmentPasses
      (setStencilPassBits .Front 1 true (construct .Renderbuffer 1 black liveContext)).ctx.calls
      false 0 = false ∧
    fragmentPasses
      (setStencilPassBits .Front 1 true (construct .Renderbuffer 1 black liveContext)).ctx.calls
      false 2 = true := by
  decide

/-- C10 as amended: for every face, every side of a polygon that face covers, every
reference value `bits` in [0, 255] and every stored 8-bit stencil value `s`, after
`setStencilPassBits face bits passIfLess` a fragment passes the stencil test if and only
if `bits <= s` when `passIfLess` is true, and if and only if `s = bits` when it is false. -/
theorem setStencilPassBits_test (w : World) (face : VROFace) (bits : Int) (passIfLess : Bool)
    (back : Bool) (s : Nat)
    (hb : 0 ≤ bits ∧ bits ≤ 255) (hs : s ≤ 255) (hc : coversSide (toGL face) back = true) :
    fragmentPasses (setStencilPassBits face bits passIfLess w).ctx.calls back s = true ↔
      (if passIfLess then bits ≤ (s : Int) else (s : Int) = bits) := by
  have hclamp : clampRef bits = bits.toNat := by
    simp only [clampRef]
    rw [if_neg (by omega), if_neg (by omega)]
  have hbn : bits.toNat ≤ 255 := by omega
  cases passIfLess <;>
    simp only [setStencilPassBits, World.issue, fragmentPasses, stencilFuncAfter_append,
      stencilFuncStep, hc, if_true, stencilTestPasses, hclamp, and_255 _ hbn, and_255 _ hs,
      Bool.false_eq_true, if_false] <;>
    first
      | (simp; done)
      | (simp; omega)

/-- C10 amended, at concrete inputs: reference 1, stored value 2, back face. -/
theorem setStencilPassBits_test_witness :
    (((0 : Int) ≤ 1 ∧ (1 : Int) ≤ 255) ∧ (2 : Nat) ≤ 255 ∧
      coversSide (toGL .FrontAndBack) true = true) ∧
    (fragmentPasses (setStencilPassBits .FrontAndBack 1 true createdColorTarget).ctx.calls true 2
        = true ↔
      (if true = true then (1 : Int) ≤ ((2 : Nat) : Int) else ((2 : Nat) : Int) = 1)) :=
  ⟨⟨by decide, by decide, by decide⟩,
   setStencilPassBits_test createdColorTarget .FrontAndBack 1 true true 2
     (by decide) (by decide) (by decide)⟩

/-! ## C11: portal balance -/

/-- The kind-specific creation keeps the kind, and for a renderbuffer target it leaves the
texture reference as it was. -/
theorem restoreFramebuffers_texture (status : List GLCall → Nat) (w w2 : World)
    (h : restoreFramebuffers status w = .ok w2) :
    w2.self.type = w.self.type ∧
    (w.self.type = .Renderbuffer → w2.self.texture = w.self.texture) := by
  unfold restoreFramebuffers at h
  split at h
  · have := createColorDepthRenderbuffers_ok status _ _ h
    exact ⟨this.2.2.1, fun _ => this.2.2.2.2.2.2.1⟩
  · rename_i ht
    have := createColorTextureTarget_ok status _ _ h
    exact ⟨this.2.2.1, fun hc => by rw [ht] at hc; cases hc⟩
  · rename_i ht
    have := createDepthTextureTarget_ok status _ _ h
    exact ⟨this.2.2.1, fun hc => by rw [ht] at hc; cases hc⟩
  · rename_i ht
    have := createDepthTextureTarget_ok status _ _ h
    exact ⟨this.2.2.1, fun hc => by rw [ht] at hc; cases hc⟩

/-- One public operation keeps the property that a renderbuffer target holds no texture. -/
theorem run_preserves_texture_kind (status : List GLCall → Nat) (op : Op) (w w2 : World)
    (hK : w.self.type = .Renderbuffer → w.self.texture = none)
    (h : run status op w = .ok w2) :
    w2.self.type = .Renderbuffer → w2.self.texture = none := by
  have sameSelf : w2.self = w.self →
      (w2.self.type = .Renderbuffer → w2.self.texture = none) := by
    intro e; rw [e]; exact hK
  cases op <;> simp only [run] at h
  case setViewport v =>
    rw [setViewport_eq] at h
    split at h
    · have := restoreFramebuffers_texture status _ _ h
      intro hk
      rw [this.1] at hk
      rw [this.2 hk]
      simp [discardFramebuffers_eq]
    · obtain rfl := Except.ok.inj h
      exact hK
  case restoreFramebuffers =>
    have := restoreFramebuffers_texture status _ _ h
    intro hk
    rw [this.1] at hk
    rw [this.2 hk]
    exact hK hk
  case discardFramebuffers =>
    obtain rfl := Except.ok.inj h
    intro _
    simp [discardFramebuffers_eq]
  case attachNewTexture =>
    have hA := attachNewTexture_ok status _ _ h
    cases hd : w.ctx.driver with
    | none => exact sameSelf (by rw [hA.2.2.2.2.2.2.1 hd])
    | some d =>
      intro hk
      rw [hA.2.1] at hk
      have := (hA.2.2.2.2.2.2.2 d hd).2.1
      rw [hk] at this
      simp [textureBacked] at this
  case attachTexture t =>
    have := attachTexture_ok t w w2 h
    intro hk
    rw [this.1] at hk
    have h2 := this.2
    simp only at hk
    rw [hk] at h2
    simp [textureBacked] at h2
  case clearTexture =>
    have := (clearTexture_ok w w2 h).1
    intro _
    rw [this]
  case setTextureImageIndex i =>
    exact sameSelf (setTextureImageIndex_ok i w w2 h).1
  case bind =>
    obtain rfl := Except.ok.inj h
    exact sameSelf (stencil_ops_self w .Front 0 true).1
  case clearStencil bits =>
    obtain rfl := Except.ok.inj h
    exact sameSelf (clear_ops_self w bits).1
  case clearDepth =>
    obtain rfl := Except.ok.inj h
    exact sameSelf (clear_ops_self w 0).2.1
  case clearColor =>
    obtain rfl := Except.ok.inj h
    exact sameSelf (clear_ops_self w 0).2.2.1
  case clearDepthAndColor =>
    obtain rfl := Except.ok.inj h
    exact sameSelf (clear_ops_self w 0).2.2.2
  case enablePortalStencilWriting f =>
    obtain rfl := Except.ok.inj h
    exact sameSelf (stencil_ops_self w f 0 true).2.1
  case enablePortalStencilRemoval f =>
    obtain rfl := Except.ok.inj h
    exact sameSelf (stencil_ops_self w f 0 true).2.2.1
  case disablePortalStencilWriting f =>
    obtain rfl := Except.ok.inj h
    exact sameSelf (stencil_ops_self w f 0 true).2.2.2.1
  case setStencilPassBits f bits p =>
    obtain rfl := Except.ok.inj h
    exact sameSelf (stencil_ops_self w f bits p).2.2.2.2

/-- C12: (1) in every world reachable from construction by public operations that did
not abort, a texture is attached only if the kind is ColorTexture, DepthTexture or
DepthTextureArray; (2) so a reachable renderbuffer target never has a texture attached;
(3) creation on a renderbuffer target leaves the texture reference as it was; and on a
renderbuffer target, in any state, (4) `attachTexture` aborts, (5) `clearTexture` aborts
and (6) `attachNewTexture` aborts when the driver is alive. -/
theorem texture_only_on_texture_backed_kinds (status : List GLCall → Nat) :
    (∀ w, Reachable status w → hasTextureAttached w = true →
      w.self.type = .ColorTexture ∨ w.self.type = .DepthTexture ∨
        w.self.type = .DepthTextureArray) ∧
    (∀ w, Reachable status w → w.self.type = .Renderbuffer → hasTextureAttached w = false) ∧
    (∀ (w w2 : World), w.self.type = .Renderbuffer →
      restoreFramebuffers status w = .ok w2 → w2.self.texture = w.self.texture) ∧
    (∀ (w : World) (tex : Option VROTexture), w.self.type = .Renderbuffer →
      ∃ a, attachTexture tex w = .error a) ∧
    (∀ w : World, w.self.type = .Renderbuffer → ∃ a, clearTexture w = .error a) ∧
    (∀ (w : World) (d : VRODriver), w.self.type = .Renderbuffer → w.ctx.driver = some d →
      ∃ a, attachNewTexture status w = .error a) := by
  have hinv : ∀ w, Reachable status w → w.self.type = .Renderbuffer → w.self.texture = none := by
    intro w hr
    induction hr with
    | construct type numImages clearColor ctx => intro _; simp [construct]
    | step op w w2 _ hrun ih => exact run_preserves_texture_kind status op w w2 ih hrun
    | surroundings w ctx _ ih => exact ih
  refine ⟨?_, ?_, ?_, ?_, ?_, ?_⟩
  · intro w hr ht
    cases hk : w.self.type
    · have := hinv w hr hk
      simp [hasTextureAttached, this] at ht
    · simp
    · simp
    · simp
  · intro w hr hk
    simp [hasTextureAttached, hinv w hr hk]
  · intro w w2 hk h
    exact (restoreFramebuffers_texture status w w2 h).2 hk
  · intro w tex hk
    cases hr : attachTexture tex w with
    | error a => exact ⟨a, rfl⟩
    | ok w2 =>
      have := (attachTexture_ok tex w w2 hr).2
      rw [hk] at this
      simp [textureBacked] at this
  · intro w hk
    cases hr : clearTexture w with
    | error a => exact ⟨a, rfl⟩
    | ok w2 =>
      have := (clearTexture_ok w w2 hr).2
      rw [hk] at this
      simp [textureBacked] at this
  · intro w d hk hd
    cases hr : attachNewTexture status w with
    | error a => exact ⟨a, rfl⟩
    | ok w2 =>
      have := ((attachNewTexture_ok status w w2 hr).2.2.2.2.2.2.2 d hd).2.1
      rw [hk] at this
      simp [textureBacked] at this

/-- C12 at concrete inputs: the created colour target is reachable and holds a texture;
the created renderbuffer target is reachable and holds none, restoring it after a discard
stores none, and the three texture operations abort on it. -/
theorem texture_only_on_texture_backed_kinds_witness :
    (Reachable alwaysComplete createdColorTarget ∧ hasTextureAttached createdColorTarget = true ∧
      (createdColorTarget.self.type = .ColorTexture ∨
        createdColorTarget.self.type = .DepthTexture ∨
        createdColorTarget.self.type = .DepthTextureArray)) ∧
    (Reachable alwaysComplete createdRenderbufferTarget ∧
      createdRenderbufferTarget.self.type = .Renderbuffer ∧
      hasTextureAttached createdRenderbufferTarget = false) ∧
    ((discardFramebuffers createdRenderbufferTarget).self.type = .Renderbuffer ∧
      restoreFramebuffers alwaysComplete (discardFramebuffers createdRenderbufferTarget) =
        .ok (worldOf (restoreFramebuffers alwaysComplete
          (discardFramebuffers createdRenderbufferTarget))) ∧
      (worldOf (restoreFramebuffers alwaysComplete
          (discardFramebuffers createdRenderbufferTarget))).self.texture =
        (discardFramebuffers createdRenderbufferTarget).self.texture) ∧
    (∃ a, attachTexture (some { id := 7, substrate := some { target := GL_TEXTURE_2D, name := 9 } })
        createdRenderbufferTarget = .error a) ∧
    (∃ a, clearTexture createdRenderbufferTarget = .error a) ∧
    (createdRenderbufferTarget.ctx.driver =
        some { depthWritingEnabled := false, colorWritingEnabled := false } ∧
      ∃ a, attachNewTexture alwaysComplete createdRenderbufferTarget = .error a) :=
  have hc : Reachable alwaysComplete createdColorTarget :=
    Reachable.step (.setViewport ⟨0, 0, 512, 512⟩) _ _
      (Reachable.construct .ColorTexture 1 black liveContext) rfl
  have hr : Reachable alwaysComplete createdRenderbufferTarget :=
    Reachable.step (.setViewport ⟨0, 0, 256, 256⟩) _ _
      (Reachable.construct .Renderbuffer 1 black liveContext) rfl
  ⟨⟨hc, rfl, (texture_only_on_texture_backed_kinds alwaysComplete).1 _ hc rfl⟩,
   ⟨hr, rfl, (texture_only_on_texture_backed_kinds alwaysComplete).2.1 _ hr rfl⟩,
   ⟨rfl, rfl, (texture_only_on_texture_backed_kinds alwaysComplete).2.2.1 _ _ rfl rfl⟩,
   (texture_only_on_texture_backed_kinds alwaysComplete).2.2.2.1 _ _ rfl,
   (texture_only_on_texture_backed_kinds alwaysComplete).2.2.2.2.1 _ rfl,
   ⟨rfl, (texture_only_on_texture_backed_kinds alwaysComplete).2.2.2.2.2 _ _ rfl rfl⟩⟩

/-! ## C13: the colour renderbuffer of a created target -/

/-- A `setViewport` that finds the size changed and completes leaves the colour handle
absent, for every kind: the teardown zeroes it and no creation function assigns it. -/
theorem setViewport_leaves_colorbuffer_absent (status : List GLCall → Nat) (w w2 : World)
    (v : VROViewport)
    (hsize : toFloat w.self.viewport.width ≠ toFloat v.width ∨
             toFloat w.self.viewport.height ≠ toFloat v.height)
    (h : setViewport status v w = .ok w2) :
    w2.self.colorbuffer = 0 := by
  simp only [setViewport, hsize, if_true, discardFramebuffers_eq] at h
  cases ht : w.self.type <;> simp only [ht] at h
  · have := (createColorDepthRenderbuffers_ok status _ _ h).2.2.2.2.2.1
    simpa using this
  · have := (createColorTextureTarget_ok status _ _ h).2.2.2.2.1
    simpa using this
  · have := (createDepthTextureTarget_ok status _ _ h).2.2.2.2.1
    simpa using this
  · have := (createDepthTextureTarget_ok status _ _ h).2.2.2.2.1
    simpa using this

/-- C13, the code at the failing input: a new renderbuffer target, and a new
depth-texture target, each given a 256 x 256 viewport with the driver alive and the
backend reporting completeness.  Creation completes with the framebuffer handle present,
but the colour handle is 0 although a colour renderbuffer (name 2, respectively 3) was
generated and attached to the colour slot; `discardFramebuffers` then deletes the
framebuffer (and the depth/stencil renderbuffer 3 of the renderbuffer target) only, and
the colour renderbuffer stays alive in the backend. -/
theorem creation_leaves_colorbuffer_absent_and_discard_leaks_it :
    (setViewport alwaysComplete ⟨0, 0, 256, 256⟩ (construct .Renderbuffer 1 black liveContext)
        = .ok createdRenderbufferTarget ∧
      createdRenderbufferTarget.self.framebuffer = 1 ∧
      createdRenderbufferTarget.self.depthStencilbuffer = 3 ∧
      createdRenderbufferTarget.self.colorbuffer = 0 ∧
      GLCall.glFramebufferRenderbuffer GL_FRAMEBUFFER GL_COLOR_ATTACHMENT0 GL_RENDERBUFFER 2
        ∈ createdRenderbufferTarget.ctx.calls ∧
      liveFramebuffers createdRenderbufferTarget.ctx.calls = [1] ∧
      liveRenderbuffers createdRenderbufferTarget.ctx.calls = [2, 3] ∧
      (discardFramebuffers createdRenderbufferTarget).ctx.calls =
        createdRenderbufferTarget.ctx.calls ++
          [GLCall.glDeleteFramebuffers 1, GLCall.glDeleteRenderbuffers 3] ∧
      liveFramebuffers (discardFramebuffers createdRenderbufferTarget).ctx.calls = [] ∧
      liveRenderbuffers (discardFramebuffers createdRenderbufferTarget).ctx.calls = [2]) ∧
    (setViewport alwaysComplete ⟨0, 0, 256, 256⟩ (construct .DepthTexture 1 black liveContext)
        = .ok createdDepthTarget ∧
      createdDepthTarget.self.framebuffer = 1 ∧
      createdDepthTarget.self.colorbuffer = 0 ∧
      GLCall.glFramebufferRenderbuffer GL_FRAMEBUFFER GL_COLOR_ATTACHMENT0 GL_RENDERBUFFER 3
        ∈ createdDepthTarget.ctx.calls ∧
      liveRenderbuffers createdDepthTarget.ctx.calls = [3] ∧
      (discardFramebuffers createdDepthTarget).ctx.calls =
        createdDepthTarget.ctx.calls ++ [GLCall.glDeleteFramebuffers 1] ∧
      liveRenderbuffers (discardFramebuffers createdDepthTarget).ctx.calls = [3]) := by
  refine ⟨⟨rfl, rfl, rfl, rfl, by decide, rfl, rfl, rfl, rfl, rfl⟩,
    ⟨rfl, rfl, rfl, by decide, rfl, rfl, rfl⟩⟩

end Viro
